import Mathlib

/-!
Shallow embedding of the neuro-ophthalmology decision-support engine
(`js/engine.js`) and proofs about its specification claims.

Modelling conventions:
* JavaScript numbers entering the pupil fields are modelled by `RawNum`:
  a field may be absent (`null`/`undefined`), the empty string, a value whose
  `Number(...)` conversion is non-finite, or a finite numeric value (as `ℚ`,
  since every operation the engine performs on them — subtraction, absolute
  value, comparison against 0.5/0.3/3/4 — is exact order arithmetic).
* JavaScript tri-state fields that distinguish `undefined` from `null` from a
  boolean are modelled by `JsBool3`.
* Objects that may be missing a whole group (`session.pupils || {}`) are
  modelled with `Option` plus an explicit default mirroring `{}` (every field
  `undefined`).
* Boolean fields read through `!!x` or plain truthiness are modelled as `Bool`
  (for those, `undefined` and `false` are indistinguishable in the source).
* Strings (RAPD grades, reaction enums, VF enums) are modelled as `String`.
-/

/-- Configuration constant `CONFIG.ANISO_THRESHOLD_MM` (0.5 mm). -/
def ANISO_THRESHOLD_MM : ℚ := 1/2

/-- Raw numeric input for a pupil-diameter field, as JavaScript sees it. -/
inductive RawNum
  | absent            -- null or undefined
  | blank             -- the empty string ""
  | nonfinite         -- any value whose Number(...) conversion is not finite
  | val (q : ℚ)       -- a value converting to the finite number q
deriving DecidableEq, Repr

/-- Tri-state raw field able to distinguish `undefined`, `null` and a boolean. -/
inductive JsBool3
  | undef
  | null
  | val (b : Bool)
deriving DecidableEq, Repr

/-- Function `num(x)` of engine.js: blank/null/undefined → null, non-finite →
null, otherwise the float value. -/
def num : RawNum → Option ℚ
  | .absent => none
  | .blank => none
  | .nonfinite => none
  | .val q => some q

/-- Function `absDiff(a, b)` of engine.js. -/
def absDiff : Option ℚ → Option ℚ → Option ℚ
  | none, _ => none
  | _, none => none
  | some a, some b => some |a - b|

/-- Truthiness of `x !== null && x !== "" && x !== undefined` for a raw
numeric field (used by `hasLightPair`/`hasDarkPair`). -/
def RawNum.present : RawNum → Bool
  | .absent => false
  | .blank => false
  | .nonfinite => true
  | .val _ => true

/-- JavaScript `x ?? null` for a tri-state field: `undefined` and `null`
collapse to `null`, booleans pass through. -/
def JsBool3.toOption : JsBool3 → Option Bool
  | .undef => none
  | .null => none
  | .val b => some b

/-- Group `session.triage`. -/
structure Triage where
  acuteOnset : Bool
  painful : Bool
  neuroSx : Bool
  trauma : Bool
deriving DecidableEq, Repr

/-- Group `session.pupils`. -/
structure Pupils where
  odLight : RawNum
  osLight : RawNum
  odDark : RawNum
  osDark : RawNum
  odLightRxn : String
  osLightRxn : String
  dilationLag : Bool
  anhidrosis : Bool
  lightNearDissociation : Bool
  vermiform : Bool
  anticholinergicExposure : Bool
  sympathomimeticExposure : Bool
  rapdOD : String
  rapdOS : String
deriving DecidableEq, Repr

/-- Group `session.opticNerve`. -/
structure OpticNerve where
  discPallorOD : Bool
  discPallorOS : Bool
  discEdemaOD : Bool
  discEdemaOS : Bool
  colorDeficitOD : Bool
  colorDeficitOS : Bool
  vaReducedOD : Bool
  vaReducedOS : Bool
  optociliaryShunts : Bool
  cupping : Bool
  hemorrhages : Bool
deriving DecidableEq, Repr

/-- Group `session.eom`. -/
structure EOMGroup where
  diplopia : Bool
  ptosis : Bool
  comitant : JsBool3
  abductionDeficit : JsBool3
  adductionDeficit : JsBool3
  verticalLimitation : JsBool3
  fatigable : Bool
  painOnMovement : Bool
deriving DecidableEq, Repr

/-- Group `session.visualFields`. -/
structure VisualFields where
  complaint : Bool
  testType : String
  reliability : String
  newDefect : Bool
  laterality : String
  respectsVerticalMeridian : JsBool3
  respectsHorizontalMeridian : JsBool3
  homonymous : Bool
  bitemporal : Bool
  altitudinal : Bool
  centralScotoma : Bool
  congruity : String
deriving DecidableEq, Repr

/-- An exam snapshot. Each group is optional, mirroring `session.x || {}`. -/
structure Session where
  triage : Option Triage
  pupils : Option Pupils
  opticNerve : Option OpticNerve
  eom : Option EOMGroup
  visualFields : Option VisualFields
deriving DecidableEq, Repr

/-- The empty object `{}` substituted for a missing `triage` group: every
field read through `!!` yields false. -/
def emptyTriage : Triage := ⟨false, false, false, false⟩

/-- The empty object `{}` substituted for a missing `pupils` group: numeric
fields are `undefined` (absent), strings behave as empty, booleans as false. -/
def emptyPupils : Pupils :=
  ⟨.absent, .absent, .absent, .absent, "", "", false, false, false, false,
    false, false, "", ""⟩

/-- The empty object `{}` substituted for a missing `opticNerve` group. -/
def emptyOpticNerve : OpticNerve :=
  ⟨false, false, false, false, false, false, false, false, false, false, false⟩

/-- The empty object `{}` substituted for a missing `eom` group: the
tri-state fields are `undefined` (not `null`). -/
def emptyEOM : EOMGroup :=
  ⟨false, false, .undef, .undef, .undef, .undef, false, false⟩

/-- The empty object `{}` substituted for a missing `visualFields` group: the
two meridian fields are `undefined` (not `null`). -/
def emptyVF : VisualFields :=
  ⟨false, "", "", false, "", .undef, .undef, false, false, false, false, ""⟩

/-- Engine view `session.triage || {}`. -/
def Session.t (s : Session) : Triage := s.triage.getD emptyTriage

/-- Engine view `session.pupils || {}`. -/
def Session.p (s : Session) : Pupils := s.pupils.getD emptyPupils

/-- Engine view `session.opticNerve || {}`. -/
def Session.onv (s : Session) : OpticNerve := s.opticNerve.getD emptyOpticNerve

/-- Engine view `session.eom || {}`. -/
def Session.e (s : Session) : EOMGroup := s.eom.getD emptyEOM

/-- Engine view `session.visualFields || {}`. -/
def Session.vf (s : Session) : VisualFields := s.visualFields.getD emptyVF

/-- Function `hasLightPair(session)`. -/
def hasLightPair (s : Session) : Bool :=
  s.p.odLight.present && s.p.osLight.present

/-- Function `hasDarkPair(session)`. -/
def hasDarkPair (s : Session) : Bool :=
  s.p.odDark.present && s.p.osDark.present

/-- Function `hasFullPupilDataset(session)`. -/
def hasFullPupilDataset (s : Session) : Bool :=
  hasLightPair s && hasDarkPair s

/-- Function `hasEOMData(session)`. Note the last disjunct is
`e.comitant !== null`, which is true when `comitant` is `undefined`. -/
def hasEOMData (s : Session) : Bool :=
  s.e.diplopia || s.e.ptosis || s.e.fatigable || s.e.painOnMovement ||
    s.e.abductionDeficit == .val true || s.e.adductionDeficit == .val true ||
    s.e.verticalLimitation == .val true || !(s.e.comitant == .null)

/-- Function `hasVFData(session)`. The meridian disjuncts are `!== null`
comparisons, true when the raw field is `undefined`. -/
def hasVFData (s : Session) : Bool :=
  s.vf.homonymous || s.vf.bitemporal || s.vf.altitudinal || s.vf.centralScotoma ||
    !(s.vf.respectsVerticalMeridian == .null) ||
    !(s.vf.respectsHorizontalMeridian == .null)

/-- Function `hasOpticNerveData(session)`. -/
def hasOpticNerveData (s : Session) : Bool :=
  s.onv.discPallorOD || s.onv.discPallorOS || s.onv.discEdemaOD || s.onv.discEdemaOS ||
    s.onv.colorDeficitOD || s.onv.colorDeficitOS || s.onv.vaReducedOD || s.onv.vaReducedOS ||
    s.onv.optociliaryShunts || s.onv.cupping || s.onv.hemorrhages

/-- Dominance computation of `deriveFeatures` (the `let dominance` block):
which lighting condition produces the larger anisocoria, when meeting the
threshold. -/
def mkDominance (anisL anisD : Option ℚ) : Option String :=
  let Lmeets := anisL.any (fun a => ANISO_THRESHOLD_MM ≤ a)
  let Dmeets := anisD.any (fun a => ANISO_THRESHOLD_MM ≤ a)
  if Lmeets || Dmeets then
    match anisL, anisD with
    | some aL, some aD =>
        if aD < aL then some "light"
        else if aL < aD then some "dark"
        else some "equal"
    | _, _ =>
        if Lmeets then some "light"
        else if Dmeets then some "dark"
        else none
  else none

/-- RAPD grade helper `rapdGrade` of `deriveFeatures`. -/
def rapdGrade : String → ℕ
  | "1+" => 1
  | "2+" => 2
  | "3+" => 3
  | "4+" => 4
  | _ => 0

/-- Derived feature set returned by `deriveFeatures`. -/
structure Features where
  acute : Bool
  painful : Bool
  neuroSx : Bool
  trauma : Bool
  anisL : Option ℚ
  anisD : Option ℚ
  dominance : Option String
  odL : Option ℚ
  osL : Option ℚ
  odD : Option ℚ
  osD : Option ℚ
  largerPupilOD : Bool
  smallerPupilOD : Bool
  odReactive : Bool
  osReactive : Bool
  odSluggish : Bool
  osSluggish : Bool
  odFixed : Bool
  osFixed : Bool
  anyFixedPupil : Bool
  anySluggishPupil : Bool
  dilationLag : Bool
  anhidrosis : Bool
  lnd : Bool
  vermiform : Bool
  anticholinergic : Bool
  sympathomimetic : Bool
  rapdOD : String
  rapdOS : String
  rapdODGrade : ℕ
  rapdOSGrade : ℕ
  hasRAPD : Bool
  significantRAPD : Bool
  severeRAPD : Bool
  rapdEye : Option String
  discPallor : Bool
  discPallorOD : Bool
  discPallorOS : Bool
  discEdema : Bool
  discEdemaOD : Bool
  discEdemaOS : Bool
  colorDeficit : Bool
  colorDeficitOD : Bool
  colorDeficitOS : Bool
  vaReduced : Bool
  vaReducedOD : Bool
  vaReducedOS : Bool
  optociliaryShunts : Bool
  cupping : Bool
  discHemorrhages : Bool
  unilateralPallorWithRAPD : Bool
  suspectedOpticNeuropathy : Bool
  diplopia : Bool
  ptosis : Bool
  comitant : Option Bool
  abductionDeficit : Option Bool
  adductionDeficit : Option Bool
  verticalLimitation : Option Bool
  fatigable : Bool
  painOnMovement : Bool
  vf_symptoms : Bool
  vf_test_type : String
  vf_reliability : String
  vf_new_defect : Bool
  vf_laterality : String
  vf_respects_vertical : Bool
  vf_respects_horizontal : Bool
  vf_homonymous : Bool
  vf_bitemporal : Bool
  vf_altitudinal : Bool
  vf_central_scotoma : Bool
  vf_congruity : String
deriving DecidableEq, Repr

/-- Function `deriveFeatures(session)` of engine.js. -/
def deriveFeatures (s : Session) : Features :=
  let t := s.t
  let p := s.p
  let onv := s.onv
  let e := s.e
  let vf := s.vf
  let odL := num p.odLight
  let osL := num p.osLight
  let odD := num p.odDark
  let osD := num p.osDark
  let anisL := absDiff odL osL
  let anisD := absDiff odD osD
  let dominance := mkDominance anisL anisD
  let largerPupilOD :=
    match odL, osL with | some a, some b => decide (b < a) | _, _ => false
  let smallerPupilOD :=
    match odD, osD with | some a, some b => decide (a < b) | _, _ => false
  let odReactive := p.odLightRxn == "brisk"
  let osReactive := p.osLightRxn == "brisk"
  let odSluggish := p.odLightRxn == "sluggish"
  let osSluggish := p.osLightRxn == "sluggish"
  let odFixed := p.odLightRxn == "none"
  let osFixed := p.osLightRxn == "none"
  let rapdODGrade := rapdGrade p.rapdOD
  let rapdOSGrade := rapdGrade p.rapdOS
  let hasRAPD := decide (0 < rapdODGrade) || decide (0 < rapdOSGrade)
  let significantRAPD := decide (2 ≤ rapdODGrade) || decide (2 ≤ rapdOSGrade)
  let severeRAPD := decide (3 ≤ rapdODGrade) || decide (3 ≤ rapdOSGrade)
  let rapdEye : Option String :=
    if rapdOSGrade < rapdODGrade then some "OD"
    else if rapdODGrade < rapdOSGrade then some "OS"
    else none
  let discPallor := onv.discPallorOD || onv.discPallorOS
  let discEdema := onv.discEdemaOD || onv.discEdemaOS
  let colorDeficit := onv.colorDeficitOD || onv.colorDeficitOS
  let vaReduced := onv.vaReducedOD || onv.vaReducedOS
  let unilateralPallorWithRAPD :=
    (onv.discPallorOD && !onv.discPallorOS && decide (0 < rapdODGrade)) ||
      (onv.discPallorOS && !onv.discPallorOD && decide (0 < rapdOSGrade))
  let suspectedOpticNeuropathy := hasRAPD || discPallor || colorDeficit
  { acute := t.acuteOnset
    painful := t.painful
    neuroSx := t.neuroSx
    trauma := t.trauma
    anisL := anisL
    anisD := anisD
    dominance := dominance
    odL := odL, osL := osL, odD := odD, osD := osD
    largerPupilOD := largerPupilOD
    smallerPupilOD := smallerPupilOD
    odReactive := odReactive, osReactive := osReactive
    odSluggish := odSluggish, osSluggish := osSluggish
    odFixed := odFixed, osFixed := osFixed
    anyFixedPupil := odFixed || osFixed
    anySluggishPupil := odSluggish || osSluggish
    dilationLag := p.dilationLag
    anhidrosis := p.anhidrosis
    lnd := p.lightNearDissociation
    vermiform := p.vermiform
    anticholinergic := p.anticholinergicExposure
    sympathomimetic := p.sympathomimeticExposure
    rapdOD := p.rapdOD
    rapdOS := p.rapdOS
    rapdODGrade := rapdODGrade
    rapdOSGrade := rapdOSGrade
    hasRAPD := hasRAPD
    significantRAPD := significantRAPD
    severeRAPD := severeRAPD
    rapdEye := rapdEye
    discPallor := discPallor
    discPallorOD := onv.discPallorOD
    discPallorOS := onv.discPallorOS
    discEdema := discEdema
    discEdemaOD := onv.discEdemaOD
    discEdemaOS := onv.discEdemaOS
    colorDeficit := colorDeficit
    colorDeficitOD := onv.colorDeficitOD
    colorDeficitOS := onv.colorDeficitOS
    vaReduced := vaReduced
    vaReducedOD := onv.vaReducedOD
    vaReducedOS := onv.vaReducedOS
    optociliaryShunts := onv.optociliaryShunts
    cupping := onv.cupping
    discHemorrhages := onv.hemorrhages
    unilateralPallorWithRAPD := unilateralPallorWithRAPD
    suspectedOpticNeuropathy := suspectedOpticNeuropathy
    diplopia := e.diplopia
    ptosis := e.ptosis
    comitant := e.comitant.toOption
    abductionDeficit := e.abductionDeficit.toOption
    adductionDeficit := e.adductionDeficit.toOption
    verticalLimitation := e.verticalLimitation.toOption
    fatigable := e.fatigable
    painOnMovement := e.painOnMovement
    vf_symptoms := vf.complaint
    vf_test_type := vf.testType
    vf_reliability := vf.reliability
    vf_new_defect := vf.newDefect
    vf_laterality := vf.laterality
    vf_respects_vertical := vf.respectsVerticalMeridian == .val true
    vf_respects_horizontal := vf.respectsHorizontalMeridian == .val true
    vf_homonymous := vf.homonymous
    vf_bitemporal := vf.bitemporal
    vf_altitudinal := vf.altitudinal
    vf_central_scotoma := vf.centralScotoma
    vf_congruity := vf.congruity }

/-- A diagnosis candidate as pushed by `add(name, score, why, nextSteps, category)`
in `scoreDifferential`. -/
structure Candidate where
  name : String
  score : ℤ
  why : List String
  nextSteps : List String
  category : String
deriving DecidableEq, Repr

/-- Local `largePattern` of `scoreDifferential`: anisocoria larger in light. -/
def largePattern (f : Features) : Bool := f.dominance == some "light"

/-- Local `smallPattern` of `scoreDifferential`: anisocoria larger in dark. -/
def smallPattern (f : Features) : Bool := f.dominance == some "dark"

/-- Model of JavaScript `Number.prototype.toFixed(1)` for the nonnegative
rationals the engine formats (rounding half away from zero). -/
def toFixed1 (q : ℚ) : String :=
  let n : ℤ := ⌊q * 10 + 1/2⌋
  toString (n / 10) ++ "." ++ toString (n % 10)

/-- Rule 1 of `scoreDifferential`: physiologic anisocoria. -/
def rule01_physiologicAnisocoria (f : Features) : List Candidate :=
  match f.anisL, f.anisD with
  | some aL, some aD =>
      let bothBelowThreshold :=
        decide (aL < ANISO_THRESHOLD_MM) && decide (aD < ANISO_THRESHOLD_MM)
      let stableAnisocoria :=
        f.dominance == some "equal" || (f.dominance == none && bothBelowThreshold)
      let anisocoriaChange := |aL - aD|
      let stableAcrossConditions := decide (anisocoriaChange < 3/10)
      if stableAnisocoria || (bothBelowThreshold && stableAcrossConditions) then
        let c2 := stableAcrossConditions && decide (0 < aL) && decide (0 < aD)
        let c3 := !f.acute && !f.painful && !f.neuroSx && !f.diplopia && !f.ptosis
        let c4 := !f.anyFixedPupil && !f.anySluggishPupil
        let c5 := !f.hasRAPD
        let c6 := !f.dilationLag && !f.anhidrosis && !f.lnd && !f.vermiform
        let s : ℤ := 3 + (if c2 then 2 else 0) + (if c3 then 2 else 0) +
          (if c4 then 1 else 0) + (if c5 then 1 else 0) + (if c6 then 1 else 0)
        let why :=
          [if bothBelowThreshold then "Anisocoria <0.5mm in both light and dark"
           else "Anisocoria stable/equal in light vs dark"] ++
          (if c2 then
            ["Anisocoria change of only " ++ toFixed1 anisocoriaChange ++
              "mm between conditions (stable)"] else []) ++
          (if c3 then ["No red flags (acute/pain/neuro/ptosis/diplopia)"] else []) ++
          (if c4 then ["Both pupils reactive"] else []) ++
          (if c5 then ["No RAPD (rules out significant afferent defect)"] else []) ++
          (if c6 then ["No pathologic pupil signs (dilation lag, LND, vermiform)"] else [])
        if 0 < s then
          [⟨"Physiologic anisocoria", s, why,
            ["Confirm measurements in consistent lighting conditions",
             "Review old photographs if available to confirm chronicity",
             "Anisocoria should remain relatively constant in light vs dark",
             "No further workup needed if stable and asymptomatic"], "pupil"⟩]
        else []
      else []
  | _, _ => []

/-- Rule 2 of `scoreDifferential`: Horner syndrome. -/
def rule02_horner (f : Features) : List Candidate :=
  let c1 := smallPattern f
  let c2 := f.dilationLag
  let c3 := f.ptosis
  let c4 := f.anhidrosis
  let c5 := smallPattern f && !f.anyFixedPupil
  let c6 := smallPattern f && !f.hasRAPD
  let s : ℤ := (if c1 then 5 else 0) + (if c2 then 3 else 0) + (if c3 then 2 else 0) +
    (if c4 then 2 else 0) + (if c5 then 1 else 0) + (if c6 then 1 else 0)
  let why :=
    (if c1 then ["Anisocoria greater in dark (small pupil abnormal)"] else []) ++
    (if c2 then ["Dilation lag (highly specific for Horner)"] else []) ++
    (if c3 then ["Ptosis (typically 1-2mm in Horner)"] else []) ++
    (if c4 then ["Anhidrosis (suggests preganglionic lesion)"] else []) ++
    (if c5 then ["Pupils reactive (expected in Horner)"] else []) ++
    (if c6 then ["No RAPD (efferent not afferent pathway)"] else [])
  let nextSteps :=
    ["Pharmacologic confirmation: Apraclonidine 0.5% (reversal of anisocoria) or cocaine 4-10% (failure to dilate)"] ++
    (if f.acute || f.painful then
      ["URGENT: Acute painful Horner requires emergent CTA/MRA neck to rule out carotid dissection"] else []) ++
    ["If confirmed: Hydroxyamphetamine 1% to localize (preganglionic vs postganglionic)",
     "MRI/MRA from hypothalamus to T2 for preganglionic; carotid/skull base imaging for postganglionic"]
  if 0 < s then [⟨"Horner syndrome", s, why, nextSteps, "pupil"⟩] else []

/-- Rule 3 of `scoreDifferential`: compressive CN III palsy. -/
def rule03_cn3Compressive (f : Features) : List Candidate :=
  let c1 := largePattern f
  let c2 := f.anyFixedPupil && largePattern f
  let c3 := f.ptosis
  let c4 := f.diplopia
  let c5 := f.adductionDeficit == some true
  let c6 := f.verticalLimitation == some true
  let c7 := f.acute
  let c8 := f.painful
  let c9 := f.neuroSx
  let s : ℤ := (if c1 then 5 else 0) + (if c2 then 2 else 0) + (if c3 then 2 else 0) +
    (if c4 then 2 else 0) + (if c5 then 2 else 0) + (if c6 then 1 else 0) +
    (if c7 then 2 else 0) + (if c8 then 2 else 0) + (if c9 then 2 else 0)
  let why :=
    (if c1 then ["Anisocoria greater in light (large pupil abnormal)"] else []) ++
    (if c2 then ["Fixed/poorly reactive dilated pupil"] else []) ++
    (if c3 then ["Ptosis (complete CN III causes severe ptosis)"] else []) ++
    (if c4 then ["Diplopia (EOM involvement)"] else []) ++
    (if c5 then ["Adduction deficit (medial rectus involvement)"] else []) ++
    (if c6 then ["Vertical limitation (SR/IR/IO involvement)"] else []) ++
    (if c7 then ["Acute onset"] else []) ++
    (if c8 then ["Pain/headache (concerning for aneurysm)"] else []) ++
    (if c9 then ["Other neurological symptoms"] else [])
  let nextSteps :=
    (if f.acute || f.painful || f.neuroSx then
      ["EMERGENT: CTA or MRA head to exclude posterior communicating artery aneurysm",
       "Consider conventional angiography if CTA/MRA negative but suspicion high"] else []) ++
    ["Complete cranial nerve exam including all EOM gazes",
     "Check for aberrant regeneration (lid-gaze dyskinesis) if chronic",
     "MRI brain with contrast if non-aneurysmal compressive lesion suspected"]
  if 0 < s then [⟨"CN III palsy - Compressive (aneurysm concern)", s, why, nextSteps, "pupil"⟩] else []

/-- Rule 4 of `scoreDifferential`: ischemic/microvascular CN III palsy. -/
def rule04_cn3Ischemic (f : Features) : List Candidate :=
  let c1 := f.ptosis && f.diplopia && !largePattern f
  let c2 := f.adductionDeficit == some true && !largePattern f
  let c3 := f.comitant == some false
  let c4 := f.painful && !f.neuroSx && !largePattern f
  let s : ℤ := (if c1 then 4 else 0) + (if c2 then 2 else 0) +
    (if c3 then 1 else 0) + (if c4 then 1 else 0)
  let why :=
    (if c1 then ["Ptosis + diplopia with pupil sparing"] else []) ++
    (if c2 then ["Adduction deficit without pupil involvement"] else []) ++
    (if c3 then ["Incomitant deviation"] else []) ++
    (if c4 then ["Pain (can occur in ischemic CN III)"] else [])
  let nextSteps :=
    ["Document vascular risk factors (diabetes, hypertension, hyperlipidemia)",
     "If pupil completely spared and no other neuro signs: may observe with close follow-up",
     "Check HbA1c, fasting glucose, lipid panel, ESR/CRP if age >50",
     "If any pupil involvement or progression: imaging indicated to exclude compressive lesion",
     "Expected recovery in 3-6 months; if no improvement by 3 months, reconsider diagnosis"]
  if 0 < s then [⟨"CN III palsy - Ischemic/Microvascular", s, why, nextSteps, "pupil"⟩] else []

/-- Rule 5 of `scoreDifferential`: Adie (tonic) pupil. -/
def rule05_adie (f : Features) : List Candidate :=
  let c1 := largePattern f
  let c2 := f.lnd
  let c3 := f.vermiform
  let c4 := f.anySluggishPupil && !f.anyFixedPupil
  let c5 := !f.painful && !f.ptosis && largePattern f
  let s : ℤ := (if c1 then 2 else 0) + (if c2 then 4 else 0) + (if c3 then 3 else 0) +
    (if c4 then 1 else 0) + (if c5 then 1 else 0)
  let why :=
    (if c1 then ["Large pupil pattern"] else []) ++
    (if c2 then ["Light-near dissociation (pupil constricts better to near than light)"] else []) ++
    (if c3 then ["Segmental/vermiform iris movements (pathognomonic)"] else []) ++
    (if c4 then ["Sluggish but present light reaction"] else []) ++
    (if c5 then ["Painless without ptosis (typical for Adie)"] else [])
  if 0 < s then
    [⟨"Adie (Tonic) pupil", s, why,
      ["Slit lamp exam for segmental vermiform iris movements",
       "Test accommodation: slow but tonically sustained constriction",
       "Pharmacologic confirmation: Dilute pilocarpine 0.0625-0.125% (constriction = denervation supersensitivity)",
       "Check deep tendon reflexes (Holmes-Adie syndrome if absent)",
       "Reassurance: benign condition, may progress to bilateral over years"], "pupil"⟩]
  else []

/-- Rule 6 of `scoreDifferential`: pharmacologic mydriasis. -/
def rule06_pharmacologic (f : Features) : List Candidate :=
  let c1 := largePattern f
  let c2 := f.anticholinergic
  let c3 := f.sympathomimetic
  let c4 := f.anyFixedPupil && largePattern f
  let c5 := !f.ptosis && !f.diplopia && largePattern f
  let s : ℤ := (if c1 then 2 else 0) + (if c2 then 5 else 0) + (if c3 then 3 else 0) +
    (if c4 then 2 else 0) + (if c5 then 1 else 0)
  let why :=
    (if c1 then ["Large pupil pattern"] else []) ++
    (if c2 then ["Anticholinergic/mydriatic exposure suspected"] else []) ++
    (if c3 then ["Sympathomimetic exposure suspected"] else []) ++
    (if c4 then ["Fixed dilated pupil"] else []) ++
    (if c5 then ["No ptosis or diplopia (isolated pupil finding)"] else [])
  if 0 < s then
    [⟨"Pharmacologic mydriasis", s, why,
      ["Detailed medication and exposure history",
       "Ask about: eye drops, scopolamine patches, jimsonweed, nebulizers, handling medications",
       "Pilocarpine 1% test: pharmacologically blocked pupil will NOT constrict",
       "If positive history and fails pilocarpine: no further workup needed",
       "Effect typically resolves in 24-72 hours depending on agent"], "pupil"⟩]
  else []

/-- Rule 7 of `scoreDifferential`: traumatic mydriasis / iris damage. -/
def rule07_traumaticMydriasis (f : Features) : List Candidate :=
  let c1 := f.trauma
  let c2 := largePattern f && f.trauma
  let c3 := f.anyFixedPupil && f.trauma
  let s : ℤ := (if c1 then 4 else 0) + (if c2 then 2 else 0) + (if c3 then 2 else 0)
  let why :=
    (if c1 then ["History of trauma/surgery"] else []) ++
    (if c2 then ["Large pupil in setting of trauma"] else []) ++
    (if c3 then ["Fixed pupil post-trauma"] else [])
  if 0 < s then
    [⟨"Traumatic mydriasis / Iris damage", s, why,
      ["Slit lamp examination for iris sphincter tears, iridodialysis",
       "Check for hyphema, lens subluxation, angle recession",
       "Gonioscopy to assess angle structures",
       "Document baseline and follow IOP (angle recession glaucoma risk)",
       "May be permanent if significant sphincter damage"], "pupil"⟩]
  else []

/-- Rule 8 of `scoreDifferential`: Argyll Robertson pupils (qualifying minimum 4). -/
def rule08_argyllRobertson (f : Features) : List Candidate :=
  let c1 := f.lnd
  let c2 :=
    match f.anisL with
    | some aL =>
        decide (aL < ANISO_THRESHOLD_MM) &&
          (match f.odL, f.osL with
           | some odL, some osL => decide (odL < 3) && decide (osL < 3)
           | _, _ => false)
    | none => false
  let c3 :=
    match f.odD, f.osD with
    | some odD, some osD => decide (odD < 4) && decide (osD < 4)
    | _, _ => false
  let s : ℤ := (if c1 then 3 else 0) + (if c2 then 2 else 0) + (if c3 then 1 else 0)
  let why :=
    (if c1 then ["Light-near dissociation"] else []) ++
    (if c2 then ["Bilateral small pupils"] else []) ++
    (if c3 then ["Poor dilation in dark"] else [])
  if 4 ≤ s then
    [⟨"Argyll Robertson pupils", s, why,
      ["Characteristic: bilateral, small, irregular, light-near dissociation",
       "Order syphilis serology (RPR/VDRL, FTA-ABS or TP-PA)",
       "If positive: lumbar puncture for CSF VDRL",
       "Check HbA1c (diabetic autonomic neuropathy can cause similar findings)",
       "Consider MRI brain if dorsal midbrain lesion suspected"], "pupil"⟩]
  else []

/-- Rule 9 of `scoreDifferential`: traumatic optic neuropathy. -/
def rule09_traumaticON (f : Features) : List Candidate :=
  let c1 := f.trauma
  let c2 := f.hasRAPD && f.trauma
  let c3 := f.discPallor && f.trauma
  let c4 := f.colorDeficit && f.trauma
  let c5 := f.vaReduced && f.trauma
  let c6 := f.unilateralPallorWithRAPD && f.trauma
  let s : ℤ := (if c1 then 3 else 0) + (if c2 then 4 else 0) + (if c3 then 3 else 0) +
    (if c4 then 2 else 0) + (if c5 then 2 else 0) + (if c6 then 2 else 0)
  let why :=
    (if c1 then ["History of trauma"] else []) ++
    (if c2 then ["RAPD in setting of trauma (indicates optic nerve damage)"] else []) ++
    (if c3 then ["Disc pallor (may be delayed 4-6 weeks post-injury)"] else []) ++
    (if c4 then ["Color vision deficit"] else []) ++
    (if c5 then ["Reduced visual acuity"] else []) ++
    (if c6 then ["Unilateral pallor with ipsilateral RAPD (classic TON)"] else [])
  let nextSteps :=
    ["Immediate: Document VA, color vision (red cap/Ishihara), RAPD grade",
     "CT orbits/optic canals: assess for fracture, hemorrhage, bone fragment",
     "Serial exams: monitor for improvement or worsening",
     "Controversial: High-dose IV methylprednisolone (CRASH trial showed harm in TBI)",
     "Optic canal decompression rarely indicated; consult neurosurgery if severe",
     "OCT RNFL at 4-6 weeks to document damage extent"]
  if 0 < s then [⟨"Traumatic Optic Neuropathy", s, why, nextSteps, "optic"⟩] else []

/-- Rule 10 of `scoreDifferential`: compressive optic neuropathy (minimum 5). -/
def rule10_compressiveON (f : Features) : List Candidate :=
  let c1 := f.hasRAPD && !f.trauma
  let c2 := f.discPallor && !f.discEdema
  let c3 := f.optociliaryShunts
  let c4 := f.colorDeficit
  let c5 := f.vaReduced
  let c6 := !f.painful && f.suspectedOpticNeuropathy
  let s : ℤ := (if c1 then 3 else 0) + (if c2 then 2 else 0) + (if c3 then 4 else 0) +
    (if c4 then 2 else 0) + (if c5 then 2 else 0) + (if c6 then 1 else 0)
  let why :=
    (if c1 then ["RAPD present (afferent pathway dysfunction)"] else []) ++
    (if c2 then ["Disc pallor without edema (suggests chronic compression)"] else []) ++
    (if c3 then ["Optociliary shunt vessels (highly specific for chronic compression)"] else []) ++
    (if c4 then ["Color vision deficit"] else []) ++
    (if c5 then ["Reduced visual acuity"] else []) ++
    (if c6 then ["Painless progression (favors compressive over inflammatory)"] else [])
  let nextSteps :=
    ["MRI orbits with contrast (fat suppression): optic nerve sheath meningioma, glioma",
     "MRI brain: intracranial extension, other lesions",
     "Visual field testing: look for junctional scotoma if near chiasm",
     "OCT RNFL to quantify damage",
     "Neuro-ophthalmology referral for management planning"]
  if 5 ≤ s then [⟨"Compressive Optic Neuropathy", s, why, nextSteps, "optic"⟩] else []

/-- Rule 11 of `scoreDifferential`: optic atrophy (minimum 6). -/
def rule11_opticAtrophy (f : Features) : List Candidate :=
  let c1 := f.discPallor
  let c2 := f.hasRAPD
  let c3 := f.colorDeficit
  let c4 := !f.discEdema
  let c5 := !f.acute && !f.painful
  let s : ℤ := (if c1 then 4 else 0) + (if c2 then 3 else 0) + (if c3 then 2 else 0) +
    (if c4 then 1 else 0) + (if c5 then 1 else 0)
  let why :=
    (if c1 then ["Disc pallor (optic atrophy)"] else []) ++
    (if c2 then ["RAPD present"] else []) ++
    (if c3 then ["Color vision deficit (dyschromatopsia)"] else []) ++
    (if c4 then ["No disc edema (established atrophy, not acute)"] else []) ++
    (if c5 then ["Chronic, painless course"] else [])
  if 6 ≤ s then
    [⟨"Optic Atrophy", s, why,
      ["Determine pattern: diffuse vs temporal (bow-tie) vs sectoral",
       "Temporal pallor: MS, compressive, toxic/nutritional",
       "Bow-tie (band) atrophy: chiasmal lesion",
       "OCT RNFL to quantify and pattern nerve fiber loss",
       "Workup: MRI brain/orbits, consider B12, folate, copper if nutritional suspected",
       "Family history: consider hereditary optic neuropathies (LHON, DOA)"], "optic"⟩]
  else []

/-- Rule 12 of `scoreDifferential`: CN VI (abducens) palsy. -/
def rule12_cn6 (f : Features) : List Candidate :=
  let c1 := f.diplopia && f.abductionDeficit == some true
  let c2 := f.abductionDeficit == some true && !(f.adductionDeficit == some true) &&
    !(f.verticalLimitation == some true)
  let c3 := f.comitant == some false
  let c4 := !largePattern f && !smallPattern f && f.abductionDeficit == some true
  let s : ℤ := (if c1 then 4 else 0) + (if c2 then 2 else 0) +
    (if c3 then 1 else 0) + (if c4 then 1 else 0)
  let why :=
    (if c1 then ["Diplopia + abduction deficit"] else []) ++
    (if c2 then ["Isolated abduction deficit"] else []) ++
    (if c3 then ["Incomitant deviation"] else []) ++
    (if c4 then ["Pupil sparing (expected in CN VI)"] else [])
  let nextSteps :=
    ["Quantify deviation with prism cover testing in primary and lateral gazes"] ++
    (if f.acute then
      ["If acute: MRI brain with attention to cavernous sinus, petrous apex, skull base",
       "LP if papilledema or signs of elevated ICP"] else []) ++
    ["Check vascular risk factors; isolated CN VI in adults >50 with diabetes/HTN may be observed",
     "If bilateral: evaluate for increased ICP, skull base pathology",
     "Expected recovery 3-6 months if microvascular"]
  if 0 < s then [⟨"CN VI (Abducens) palsy", s, why, nextSteps, "eom"⟩] else []

/-- Rule 13 of `scoreDifferential`: CN IV (trochlear) palsy. -/
def rule13_cn4 (f : Features) : List Candidate :=
  let c1 := f.diplopia && f.verticalLimitation == some true
  let c2 := f.verticalLimitation == some true && !(f.abductionDeficit == some true) &&
    !(f.adductionDeficit == some true)
  let c3 := f.comitant == some false
  let c4 := !largePattern f && !smallPattern f && f.verticalLimitation == some true
  let s : ℤ := (if c1 then 3 else 0) + (if c2 then 2 else 0) +
    (if c3 then 1 else 0) + (if c4 then 1 else 0)
  let why :=
    (if c1 then ["Diplopia + vertical limitation"] else []) ++
    (if c2 then ["Isolated vertical deficit (consider CN IV)"] else []) ++
    (if c3 then ["Incomitant deviation"] else []) ++
    (if c4 then ["Pupil sparing"] else [])
  let nextSteps :=
    ["Three-step test: hypertropia worse with contralateral gaze and ipsilateral head tilt",
     "Check for head tilt in old photographs (longstanding vs acquired)",
     "Double Maddox rod test to assess torsion"] ++
    (if f.trauma then ["Trauma history: CN IV most susceptible to closed head injury"] else []) ++
    ["MRI brain if no trauma history and no vascular risk factors"]
  if 0 < s then [⟨"CN IV (Trochlear) palsy", s, why, nextSteps, "eom"⟩] else []

/-- Rule 14 of `scoreDifferential`: ocular myasthenia gravis. The second
condition is an if / else-if chain in the source. -/
def rule14_myasthenia (f : Features) : List Candidate :=
  let c1 := f.fatigable
  let c2a := f.ptosis && f.diplopia
  let c2b := !c2a && f.ptosis
  let c2c := !c2a && !f.ptosis && f.diplopia
  let c3 := (f.ptosis || f.diplopia) && !largePattern f && !smallPattern f
  let c4 := !f.hasRAPD && (f.ptosis || f.diplopia)
  let c5 := f.comitant == some true && f.diplopia
  let s : ℤ := (if c1 then 5 else 0) + (if c2a then 3 else 0) + (if c2b then 2 else 0) +
    (if c2c then 2 else 0) + (if c3 then 2 else 0) + (if c4 then 1 else 0) +
    (if c5 then 1 else 0)
  let why :=
    (if c1 then ["Fatigable weakness (hallmark of MG)"] else []) ++
    (if c2a then ["Ptosis + diplopia combination"] else []) ++
    (if c2b then ["Ptosis present"] else []) ++
    (if c2c then ["Diplopia present"] else []) ++
    (if c3 then ["Pupil-sparing pattern (required for MG diagnosis)"] else []) ++
    (if c4 then ["No RAPD (MG doesn’t affect afferent pathway)"] else []) ++
    (if c5 then ["Comitant strabismus (can mimic any pattern in MG)"] else [])
  let nextSteps :=
    ["Sustained upgaze test: observe for ptosis worsening over 1-2 minutes",
     "Ice pack test: improvement of ptosis after 2 minutes of ice",
     "Cogan lid twitch: brief overshoot on return from downgaze",
     "Serology: Anti-AChR antibodies (positive in ~50% ocular MG)",
     "If seronegative: Anti-MuSK antibodies, repetitive nerve stimulation, single-fiber EMG",
     "CT chest to evaluate for thymoma",
     "Systemic MG develops in ~50% within 2 years; consider pyridostigmine trial"]
  if 0 < s then [⟨"Myasthenia Gravis - Ocular", s, why, nextSteps, "eom"⟩] else []

/-- Rule 15 of `scoreDifferential`: internuclear ophthalmoplegia (minimum 4). -/
def rule15_ino (f : Features) : List Candidate :=
  let c1 := f.adductionDeficit == some true
  let c2 := f.diplopia && f.adductionDeficit == some true
  let c3 := f.adductionDeficit == some true && !f.ptosis && !largePattern f
  let c4 := f.neuroSx
  let s : ℤ := (if c1 then 4 else 0) + (if c2 then 2 else 0) +
    (if c3 then 2 else 0) + (if c4 then 1 else 0)
  let why :=
    (if c1 then ["Adduction deficit (key feature of INO)"] else []) ++
    (if c2 then ["Diplopia with adduction weakness"] else []) ++
    (if c3 then ["No ptosis, pupil sparing (unlike CN III)"] else []) ++
    (if c4 then ["Other neurological symptoms"] else [])
  let nextSteps :=
    ["Test convergence: typically preserved in INO (distinguishes from CN III)",
     "Observe for abducting nystagmus in contralateral eye",
     "MRI brain with attention to MLF in dorsal pons/midbrain",
     "If young patient: evaluate for multiple sclerosis (LP, additional MRI)",
     "If elderly: consider brainstem stroke",
     "If bilateral (WEBINO): consider MS, stroke, Wernicke encephalopathy"]
  if 4 ≤ s then [⟨"Internuclear Ophthalmoplegia (INO)", s, why, nextSteps, "eom"⟩] else []

/-- Rule 16 of `scoreDifferential`: thyroid eye disease (minimum 3). -/
def rule16_ted (f : Features) : List Candidate :=
  let c1 := f.verticalLimitation == some true
  let c2 := f.diplopia
  let c3 := f.painOnMovement
  let s : ℤ := (if c1 then 2 else 0) + (if c2 then 2 else 0) + (if c3 then 1 else 0)
  let why :=
    (if c1 then ["Vertical limitation (common in TED: IR restriction)"] else []) ++
    (if c2 then ["Diplopia (restrictive strabismus)"] else []) ++
    (if c3 then ["Pain on movement (active inflammation)"] else [])
  let nextSteps :=
    ["Examine for lid retraction, lid lag, proptosis, chemosis",
     "Check thyroid function tests (TSH, free T4, T3)",
     "TSH receptor antibodies (TRAb) if clinical suspicion high",
     "CT orbits (no contrast): enlarged EOMs with tendon sparing",
     "Clinical Activity Score to assess inflammatory phase",
     "Refer to oculoplastics/neuro-ophthalmology for management"]
  if 3 ≤ s then [⟨"Thyroid Eye Disease", s, why, nextSteps, "eom"⟩] else []

/-- Rule 17 of `scoreDifferential`: orbital inflammatory disease. -/
def rule17_orbitalInflammatory (f : Features) : List Candidate :=
  let c1 := f.painOnMovement
  let c2 := f.diplopia && f.painOnMovement
  let c3 := f.painful
  let c4 := f.acute
  let s : ℤ := (if c1 then 4 else 0) + (if c2 then 2 else 0) +
    (if c3 then 2 else 0) + (if c4 then 1 else 0)
  let why :=
    (if c1 then ["Pain on eye movement"] else []) ++
    (if c2 then ["Diplopia + pain combination"] else []) ++
    (if c3 then ["Orbital/periocular pain"] else []) ++
    (if c4 then ["Acute onset"] else [])
  let nextSteps :=
    ["Examine for proptosis, chemosis, lid edema, conjunctival injection",
     "CT orbits with contrast: diffuse or localized inflammation",
     "MRI orbits with fat suppression for soft tissue detail",
     "Labs: CBC, ESR, CRP, ANA, ANCA, ACE level",
     "Consider biopsy if atypical features or poor response to steroids",
     "Trial of systemic corticosteroids often diagnostic and therapeutic"]
  if 0 < s then [⟨"Orbital inflammatory disease", s, why, nextSteps, "eom"⟩] else []

/-- Rule 18 of `scoreDifferential`: cavernous sinus syndrome, first catalog
entry (minimum 4). -/
def rule18_cavernousSinus (f : Features) : List Candidate :=
  let cnCount : ℕ :=
    (if f.abductionDeficit == some true then 1 else 0) +
    (if f.adductionDeficit == some true || f.verticalLimitation == some true then 1 else 0) +
    (if f.ptosis then 1 else 0)
  let c1 := 2 ≤ cnCount
  let c2 := f.painful
  let c3 := largePattern f || smallPattern f
  let c4 := f.neuroSx
  let s : ℤ := (if c1 then 4 else 0) + (if c2 then 2 else 0) +
    (if c3 then 1 else 0) + (if c4 then 1 else 0)
  let why :=
    (if c1 then ["Multiple cranial nerve involvement"] else []) ++
    (if c2 then ["Painful ophthalmoplegia"] else []) ++
    (if c3 then ["Pupil involvement (sympathetic or parasympathetic)"] else []) ++
    (if c4 then ["Other neurological symptoms"] else [])
  let nextSteps :=
    if 4 ≤ s then
      ["MRI brain with contrast, thin cuts through cavernous sinus",
       "MRA/CTA to evaluate carotid and cavernous sinus",
       "Consider: tumor, infection, thrombosis, CCF, Tolosa-Hunt syndrome",
       "If Tolosa-Hunt suspected: dramatic response to steroids expected",
       "Check V1/V2 sensation (forehead, cheek numbness)"]
    else []
  if 4 ≤ s then [⟨"Cavernous sinus syndrome", s, why, nextSteps, "eom"⟩] else []

/-- Reliability penalty applied by the visual-field rules. -/
def relPenalty (f : Features) : ℤ := if f.vf_reliability == "poor" then -2 else 0

/-- Reliability note pushed by the visual-field rules when the penalty fires. -/
def relNoteList (f : Features) : List String :=
  if f.vf_reliability == "poor" then ["Poor reliability reduces confidence"] else []

/-- Rule 19 of `scoreDifferential`: chiasmal compression. -/
def rule19_chiasmal (f : Features) : List Candidate :=
  let c1 := f.vf_bitemporal
  let c2 := f.vf_respects_vertical
  let c3 := f.vf_laterality == "binocular"
  let c4 := f.vf_new_defect
  let s : ℤ := (if c1 then 7 else 0) + (if c2 then 2 else 0) +
    (if c3 then 1 else 0) + (if c4 then 1 else 0) + relPenalty f
  let why :=
    (if c1 then ["Bitemporal field pattern (classic chiasmal sign)"] else []) ++
    (if c2 then ["Respects vertical meridian"] else []) ++
    (if c3 then ["Binocular involvement"] else []) ++
    (if c4 then ["New defect vs baseline"] else []) ++
    relNoteList f
  if 0 < s then
    [⟨"Chiasmal compression", s, why,
      ["MRI pituitary/sella with and without contrast (dedicated protocol)",
       "Pituitary hormone panel: prolactin, TSH, free T4, ACTH, cortisol, IGF-1, LH, FSH",
       "Formal visual field testing with reliable indices",
       "OCT RNFL to assess optic nerve damage",
       "Refer to neuro-ophthalmology and neurosurgery/endocrinology as appropriate"], "vf"⟩]
  else []

/-- Rule 20 of `scoreDifferential`: optic tract lesion. -/
def rule20_opticTract (f : Features) : List Candidate :=
  let c1 := f.vf_homonymous
  let c2 := f.vf_congruity == "low"
  let c3 := f.vf_respects_vertical
  let c4 := f.hasRAPD && f.vf_homonymous
  let s : ℤ := (if c1 then 5 else 0) + (if c2 then 3 else 0) +
    (if c3 then 2 else 0) + (if c4 then 3 else 0) + relPenalty f
  let why :=
    (if c1 then ["Homonymous pattern"] else []) ++
    (if c2 then ["Low congruity (suggests optic tract)"] else []) ++
    (if c3 then ["Respects vertical meridian"] else []) ++
    (if c4 then
      ["RAPD present (optic tract lesions produce contralateral RAPD - key distinguishing feature)"]
     else []) ++
    relNoteList f
  let nextSteps :=
    ["MRI brain with attention to optic tract",
     "Look for bow-tie (band) atrophy on OCT/fundoscopy"] ++
    (if f.acute then ["If acute: consider stroke protocol"] else []) ++
    ["Common etiologies: tumor, stroke, demyelination, trauma"]
  if 0 < s then [⟨"Optic tract lesion", s, why, nextSteps, "vf"⟩] else []

/-- Rule 21 of `scoreDifferential`: lateral geniculate nucleus lesion
(minimum 5). -/
def rule21_lgn (f : Features) : List Candidate :=
  let c1 := f.vf_homonymous
  let c2 := f.vf_respects_horizontal && f.vf_homonymous
  let c3 := f.vf_congruity == "moderate"
  let s : ℤ := (if c1 then 4 else 0) + (if c2 then 3 else 0) +
    (if c3 then 1 else 0) + relPenalty f
  let why :=
    (if c1 then ["Homonymous pattern"] else []) ++
    (if c2 then ["Respects horizontal (suggests LGN sectoranopia)"] else []) ++
    (if c3 then ["Moderate congruity"] else []) ++
    relNoteList f
  if 5 ≤ s then
    [⟨"Lateral geniculate nucleus (LGN) lesion", s, why,
      ["MRI brain with attention to thalamus/LGN",
       "Dual blood supply (anterior/posterior choroidal): can produce sector defects",
       "Consider stroke, tumor, demyelination",
       "Pattern: homonymous horizontal sectoranopia (wedge-shaped) is characteristic"], "vf"⟩]
  else []

/-- Rule 22 of `scoreDifferential`: optic radiation lesion. -/
def rule22_opticRadiation (f : Features) : List Candidate :=
  let c1 := f.vf_homonymous
  let c2 := f.vf_respects_vertical
  let c3 := f.vf_congruity == "moderate" || f.vf_congruity == "low"
  let c4 := !f.hasRAPD && f.vf_homonymous
  let s : ℤ := (if c1 then 5 else 0) + (if c2 then 2 else 0) +
    (if c3 then 2 else 0) + (if c4 then 1 else 0) + relPenalty f
  let why :=
    (if c1 then ["Homonymous pattern"] else []) ++
    (if c2 then ["Respects vertical meridian"] else []) ++
    (if c3 then
      [(if f.vf_congruity == "low" then "Lower" else "Moderate") ++
        " congruity (anterior radiations)"] else []) ++
    (if c4 then ["No RAPD (lesion is retrochiasmal)"] else []) ++
    relNoteList f
  let nextSteps :=
    ["MRI brain with attention to temporal/parietal lobes"] ++
    (if f.acute then ["If acute: stroke protocol, check last known well time"] else []) ++
    ["Superior quadrantanopia: temporal lobe (Meyer’s loop)",
     "Inferior quadrantanopia: parietal lobe",
     "Common etiologies: stroke (MCA territory), tumor, demyelination"]
  if 0 < s then [⟨"Optic radiation lesion", s, why, nextSteps, "vf"⟩] else []

/-- Rule 23 of `scoreDifferential`: occipital cortex lesion. -/
def rule23_occipital (f : Features) : List Candidate :=
  let c1 := f.vf_homonymous
  let c2 := f.vf_congruity == "high"
  let c3 := f.vf_respects_vertical
  let c4 := !f.hasRAPD && f.vf_homonymous
  let s : ℤ := (if c1 then 5 else 0) + (if c2 then 3 else 0) +
    (if c3 then 2 else 0) + (if c4 then 1 else 0) + relPenalty f
  let why :=
    (if c1 then ["Homonymous pattern"] else []) ++
    (if c2 then ["High congruity (characteristic of occipital cortex)"] else []) ++
    (if c3 then ["Respects vertical meridian"] else []) ++
    (if c4 then ["No RAPD (retrochiasmal lesion)"] else []) ++
    relNoteList f
  let nextSteps :=
    (if f.acute then
      ["URGENT: Stroke protocol - posterior circulation (PCA territory)",
       "Check last known well time for thrombolysis/thrombectomy window"] else []) ++
    ["MRI brain (DWI sequence if acute) with attention to occipital lobes",
     "Macular sparing may occur (dual blood supply from MCA/PCA)",
     "Complete homonymous hemianopia with macular sparing: occipital pole"]
  if 0 < s then [⟨"Occipital cortex lesion", s, why, nextSteps, "vf"⟩] else []

/-- Rule 24 of `scoreDifferential`: arteritic AION. The first condition is an
if / else-if pair in the source. -/
def rule24_aion (f : Features) : List Candidate :=
  let c1a := f.vf_altitudinal && f.vf_respects_horizontal
  let c1b := !c1a && f.vf_altitudinal
  let c2 := f.vf_laterality == "mono"
  let c3 := f.hasRAPD
  let c4 := f.discEdema
  let c5 := f.painful
  let c6 := f.acute
  let s : ℤ := (if c1a then 6 else 0) + (if c1b then 4 else 0) + (if c2 then 2 else 0) +
    (if c3 then 3 else 0) + (if c4 then 2 else 0) + (if c5 then 1 else 0) +
    (if c6 then 1 else 0) + relPenalty f
  let why :=
    (if c1a then ["Altitudinal defect respecting horizontal meridian (classic AION)"] else []) ++
    (if c1b then ["Altitudinal pattern"] else []) ++
    (if c2 then ["Monocular (unilateral optic nerve)"] else []) ++
    (if c3 then ["RAPD present (key finding in optic neuropathy)"] else []) ++
    (if c4 then ["Disc edema present"] else []) ++
    (if c5 then ["Headache/pain (consider GCA)"] else []) ++
    (if c6 then ["Acute onset"] else []) ++
    relNoteList f
  let nextSteps :=
    ["URGENT if age >50: ESR and CRP immediately (GCA screening)",
     "Examine optic disc: pallid edema (arteritic) vs hyperemic edema (non-arteritic)",
     "Ask about jaw claudication, scalp tenderness, polymyalgia symptoms",
     "If GCA suspected: start high-dose IV methylprednisolone pending temporal artery biopsy",
     "Temporal artery biopsy within 2 weeks (steroids don’t mask pathology)",
     "Assess fellow eye risk: very high in untreated GCA"]
  if 0 < s then [⟨"Anterior Ischemic Optic Neuropathy (AION)", s, why, nextSteps, "vf"⟩] else []

/-- Rule 25 of `scoreDifferential`: non-arteritic AION (minimum 5). -/
def rule25_naion (f : Features) : List Candidate :=
  let c1 := f.vf_altitudinal
  let c2 := f.vf_laterality == "mono"
  let c3 := f.hasRAPD
  let c4 := !f.painful && f.vf_altitudinal
  let s : ℤ := (if c1 then 4 else 0) + (if c2 then 1 else 0) +
    (if c3 then 3 else 0) + (if c4 then 1 else 0) + relPenalty f
  let why :=
    (if c1 then ["Altitudinal pattern"] else []) ++
    (if c2 then ["Monocular"] else []) ++
    (if c3 then ["RAPD present"] else []) ++
    (if c4 then ["Painless (typical for NAION)"] else []) ++
    relNoteList f
  if 5 ≤ s then
    [⟨"Non-arteritic AION (NAION)", s, why,
      ["Examine disc: hyperemic edema, small cup (’disc at risk’)",
       "ESR/CRP to exclude GCA (mandatory if age >50)",
       "Assess vascular risk factors: HTN, DM, hyperlipidemia, sleep apnea",
       "No proven treatment; optimize vascular risk factors",
       "Fellow eye risk ~15% over 5 years",
       "Avoid nocturnal hypotension, consider sleep study"], "vf"⟩]
  else []

/-- Rule 26 of `scoreDifferential`: optic neuritis. -/
def rule26_opticNeuritis (f : Features) : List Candidate :=
  let c1 := f.vf_central_scotoma
  let c2 := f.painOnMovement
  let c3 := f.hasRAPD
  let c4 := f.colorDeficit
  let c5 := f.vf_laterality == "mono"
  let c6 := f.vf_new_defect
  let c7 := f.acute
  let s : ℤ := (if c1 then 5 else 0) + (if c2 then 4 else 0) + (if c3 then 3 else 0) +
    (if c4 then 2 else 0) + (if c5 then 1 else 0) + (if c6 then 1 else 0) +
    (if c7 then 1 else 0) + relPenalty f
  let why :=
    (if c1 then ["Central scotoma"] else []) ++
    (if c2 then ["Pain on eye movement (90% of optic neuritis)"] else []) ++
    (if c3 then ["RAPD present (hallmark of unilateral optic neuropathy)"] else []) ++
    (if c4 then ["Color vision deficit (often disproportionate to VA)"] else []) ++
    (if c5 then ["Monocular (typically unilateral)"] else []) ++
    (if c6 then ["New defect"] else []) ++
    (if c7 then ["Acute/subacute onset"] else []) ++
    relNoteList f
  let nextSteps :=
    ["Check visual acuity, color vision (red cap desaturation, Ishihara), RAPD grade",
     "MRI brain and orbits with contrast (fat suppression for orbits)",
     "Disc may be normal (retrobulbar) or swollen (papillitis)",
     "If MRI shows demyelinating lesions: discuss MS risk and treatment",
     "ONTT: IV steroids speed recovery but don’t change final outcome",
     "Consider NMO-IgG (aquaporin-4), MOG antibodies if atypical features"]
  if 0 < s then [⟨"Optic neuritis", s, why, nextSteps, "vf"⟩] else []

/-- Rule 27 of `scoreDifferential`: macular disease (minimum 5). -/
def rule27_macular (f : Features) : List Candidate :=
  let c1 := f.vf_central_scotoma
  let c2 := f.vf_laterality == "mono"
  let c3 := f.vf_central_scotoma && !f.significantRAPD
  let c4 := !f.painOnMovement && f.vf_central_scotoma
  let c5 := !f.colorDeficit && f.vf_central_scotoma
  let s : ℤ := (if c1 then 4 else 0) + (if c2 then 1 else 0) + (if c3 then 3 else 0) +
    (if c4 then 1 else 0) + (if c5 then 1 else 0) + relPenalty f
  let why :=
    (if c1 then ["Central scotoma"] else []) ++
    (if c2 then ["Monocular"] else []) ++
    (if c3 then ["No significant RAPD (strongly favors macular over optic nerve)"] else []) ++
    (if c4 then ["Painless"] else []) ++
    (if c5 then ["No color deficit (favors macular)"] else []) ++
    relNoteList f
  if 5 ≤ s then
    [⟨"Macular disease", s, why,
      ["Dilated fundus exam with attention to macula",
       "OCT macula: assess for AMD, macular hole, epiretinal membrane, CME",
       "Amsler grid: metamorphopsia suggests macular pathology",
       "Check for distortion, not just scotoma",
       "If RAPD present: consider combined or optic nerve pathology"], "vf"⟩]
  else []

/-- Rule 28 of `scoreDifferential`: glaucomatous optic neuropathy (minimum 4). -/
def rule28_glaucoma (f : Features) : List Candidate :=
  let c1 := f.vf_respects_horizontal && f.vf_laterality == "mono"
  let c2 := f.vf_altitudinal && f.vf_laterality == "mono"
  let c3 := f.cupping
  let c4 := !f.acute && !f.painful
  let s : ℤ := (if c1 then 3 else 0) + (if c2 then 2 else 0) +
    (if c3 then 3 else 0) + (if c4 then 1 else 0) + relPenalty f
  let why :=
    (if c1 then ["Respects horizontal meridian (nerve fiber layer pattern)"] else []) ++
    (if c2 then ["Altitudinal/arcuate pattern"] else []) ++
    (if c3 then ["Optic disc cupping noted"] else []) ++
    (if c4 then ["Chronic, painless"] else []) ++
    relNoteList f
  if 4 ≤ s then
    [⟨"Glaucomatous optic neuropathy", s, why,
      ["Check IOP, gonioscopy, optic nerve head evaluation",
       "OCT RNFL for structural correlation with VF defect",
       "Typical patterns: arcuate scotoma, nasal step, paracentral scotomas",
       "Progressive: compare to prior fields",
       "If diagnosis confirmed: IOP-lowering treatment"], "vf"⟩]
  else []

/-- Rule 29 of `scoreDifferential`: functional visual field loss (minimum 4). -/
def rule29_functional (f : Features) : List Candidate :=
  let c1 := f.vf_reliability == "poor"
  let c2 := !f.vf_homonymous && !f.vf_bitemporal && !f.vf_altitudinal &&
    !f.vf_respects_vertical && !f.vf_respects_horizontal && f.vf_symptoms
  let c3 := f.vf_symptoms && !f.hasRAPD && !f.painOnMovement
  let s : ℤ := (if c1 then 2 else 0) + (if c2 then 2 else 0) + (if c3 then 1 else 0)
  let why :=
    (if c1 then ["Poor reliability"] else []) ++
    (if c2 then ["No clear anatomic pattern"] else []) ++
    (if c3 then ["Visual complaints without objective findings"] else [])
  if 4 ≤ s then
    [⟨"Functional visual field loss (consider)", s, why,
      ["Look for tubular fields (don’t expand with distance)",
       "Spiral or star pattern on kinetic perimetry",
       "Inconsistency between VF and mobility/behavior",
       "Normal pupils, normal fundus",
       "This is a diagnosis of exclusion - rule out organic causes first",
       "Approach with empathy; may coexist with real pathology"], "vf"⟩]
  else []

/-- Rule 30 of `scoreDifferential`: Miller Fisher syndrome (minimum 5). -/
def rule30_millerFisher (f : Features) : List Candidate :=
  let c1 := f.diplopia
  let eomCount : ℕ :=
    (if f.abductionDeficit == some true then 1 else 0) +
    (if f.adductionDeficit == some true then 1 else 0) +
    (if f.verticalLimitation == some true then 1 else 0)
  let c2 := 2 ≤ eomCount
  let c3 := f.ptosis
  let c4 := largePattern f || smallPattern f
  let c5 := f.neuroSx
  let s : ℤ := (if c1 then 2 else 0) + (if c2 then 2 else 0) + (if c3 then 1 else 0) +
    (if c4 then 1 else 0) + (if c5 then 2 else 0)
  let why :=
    (if c1 then ["Diplopia/ophthalmoplegia"] else []) ++
    (if c2 then ["Multiple EOM involvement"] else []) ++
    (if c3 then ["Ptosis"] else []) ++
    (if c4 then ["Pupil abnormality (can occur in MFS)"] else []) ++
    (if c5 then ["Other neurological symptoms (ataxia?)"] else [])
  if 5 ≤ s then
    [⟨"Miller Fisher syndrome", s, why,
      ["Clinical triad: ophthalmoplegia, ataxia, areflexia",
       "Check deep tendon reflexes (typically absent)",
       "Anti-GQ1b antibodies (positive in >90%)",
       "Often preceded by respiratory/GI infection",
       "LP: albuminocytologic dissociation",
       "Usually self-limited; IVIG may speed recovery"], "neuro"⟩]
  else []

/-- Rule 31 of `scoreDifferential`: Wernicke encephalopathy (minimum 5). -/
def rule31_wernicke (f : Features) : List Candidate :=
  let c1 := f.abductionDeficit == some true
  let c2 := f.diplopia
  let c3 := f.neuroSx
  let c4 := !largePattern f && !smallPattern f && f.abductionDeficit == some true
  let s : ℤ := (if c1 then 2 else 0) + (if c2 then 1 else 0) +
    (if c3 then 3 else 0) + (if c4 then 1 else 0)
  let why :=
    (if c1 then ["Abduction deficit (CN VI involvement common)"] else []) ++
    (if c2 then ["Diplopia"] else []) ++
    (if c3 then ["Neurological symptoms (confusion, ataxia)"] else []) ++
    (if c4 then ["Pupil-sparing"] else [])
  if 5 ≤ s then
    [⟨"Wernicke encephalopathy", s, why,
      ["Classic triad: ophthalmoplegia, confusion, ataxia (complete triad in <20%)",
       "Risk factors: alcoholism, malnutrition, bariatric surgery, hyperemesis",
       "URGENT: Thiamine 500mg IV TID before glucose administration",
       "MRI: T2/FLAIR hyperintensity in mammillary bodies, periaqueductal gray",
       "Prevent Korsakoff syndrome with prompt treatment"], "neuro"⟩]
  else []

/-- Rule 32 of `scoreDifferential`: thyroid eye disease, second catalog entry
(minimum 4, with an explicit ptosis penalty). -/
def rule32_tedGraves (f : Features) : List Candidate :=
  let c1 := f.diplopia
  let c2 := f.verticalLimitation == some true
  let c3 := f.comitant == some true
  let c4 := f.painOnMovement
  let c5 := !largePattern f && !smallPattern f && f.diplopia
  let c6 := f.ptosis
  let s : ℤ := (if c1 then 2 else 0) + (if c2 then 3 else 0) + (if c3 then 2 else 0) +
    (if c4 then 2 else 0) + (if c5 then 1 else 0) + (if c6 then -1 else 0)
  let why :=
    (if c1 then ["Diplopia present"] else []) ++
    (if c2 then ["Vertical limitation (IR restriction causes upgaze limitation)"] else []) ++
    (if c3 then ["Comitant deviation (suggests restrictive rather than neurogenic)"] else []) ++
    (if c4 then ["Pain on eye movement (active inflammatory phase)"] else []) ++
    (if c5 then ["Pupil-sparing"] else []) ++
    (if c6 then ["Note: Ptosis unusual in TED (lid retraction typical)"] else [])
  if 4 ≤ s then
    [⟨"Thyroid Eye Disease (Graves’)", s, why,
      ["Exam: proptosis (Hertel), lid retraction, lagophthalmos, conjunctival injection",
       "Check thyroid function: TSH, free T4, T3, TSH receptor antibodies",
       "CT orbits: enlarged extraocular muscles with tendon sparing",
       "Pattern: IR > MR > SR > LR (mnemonic: I’M SLow)",
       "Active vs inactive: CAS (Clinical Activity Score)",
       "Mild: lubricants, selenium; Moderate-severe: IV steroids, orbital radiation, surgery"], "eom"⟩]
  else []

/-- Rule 33 of `scoreDifferential`: orbital pseudotumor (minimum 5). -/
def rule33_pseudotumor (f : Features) : List Candidate :=
  let c1 := f.painOnMovement
  let c2 := f.painful
  let c3 := f.diplopia
  let c4 := f.acute
  let eomCount : ℕ :=
    (if f.abductionDeficit == some true then 1 else 0) +
    (if f.adductionDeficit == some true then 1 else 0) +
    (if f.verticalLimitation == some true then 1 else 0)
  let c5 := 1 ≤ eomCount
  let s : ℤ := (if c1 then 4 else 0) + (if c2 then 2 else 0) + (if c3 then 2 else 0) +
    (if c4 then 1 else 0) + (if c5 then 1 else 0)
  let why :=
    (if c1 then ["Pain on eye movement (hallmark of orbital inflammation)"] else []) ++
    (if c2 then ["Pain/headache present"] else []) ++
    (if c3 then ["Diplopia (myositis component)"] else []) ++
    (if c4 then ["Acute onset"] else []) ++
    (if c5 then ["EOM limitation present"] else [])
  if 5 ≤ s then
    [⟨"Orbital inflammatory disease (pseudotumor)", s, why,
      ["Exam: proptosis, chemosis, injection, restricted motility, pain",
       "CT/MRI orbits with contrast: enhancing mass, may involve any orbital structure",
       "Subtypes: myositis, dacryoadenitis, diffuse, apical",
       "Dramatic response to corticosteroids (diagnostic and therapeutic)",
       "If poor steroid response: biopsy to exclude lymphoma, IgG4-related disease",
       "Rule out: thyroid eye disease, lymphoma, sarcoidosis, granulomatosis"], "eom"⟩]
  else []

/-- Rule 34 of `scoreDifferential`: cavernous sinus syndrome, second catalog
entry (minimum 5). -/
def rule34_cavernousSinus2 (f : Features) : List Candidate :=
  let cnCount : ℕ :=
    (if largePattern f then 1 else 0) + (if f.ptosis then 1 else 0) +
    (if f.abductionDeficit == some true then 1 else 0) +
    (if f.adductionDeficit == some true then 1 else 0) +
    (if f.verticalLimitation == some true then 1 else 0)
  let c1 := 2 ≤ cnCount
  let c2 := f.diplopia && f.ptosis
  let c3 := f.painful
  let c4 := smallPattern f
  let c5 := f.acute
  let s : ℤ := (if c1 then 4 else 0) + (if c2 then 2 else 0) + (if c3 then 2 else 0) +
    (if c4 then 2 else 0) + (if c5 then 1 else 0)
  let why :=
    (if c1 then ["Multiple cranial nerve involvement"] else []) ++
    (if c2 then ["Diplopia + ptosis"] else []) ++
    (if c3 then ["Pain (V1/V2 involvement or mass effect)"] else []) ++
    (if c4 then ["Small pupil pattern (sympathetic involvement in cavernous sinus)"] else []) ++
    (if c5 then ["Acute onset"] else [])
  if 5 ≤ s then
    [⟨"Cavernous sinus syndrome", s, why,
      ["Structures in cavernous sinus: CN III, IV, VI, V1, V2, sympathetics, ICA",
       "MRI brain with attention to cavernous sinus, fat-saturated T1 with contrast",
       "Etiologies: tumor (meningioma, pituitary), infection, CCF, thrombosis, Tolosa-Hunt",
       "Check for proptosis, conjunctival injection (CCF), facial sensory loss (V1/V2)",
       "If infectious: emergent - can spread from sinusitis",
       "Tolosa-Hunt: painful ophthalmoplegia, responds to steroids"], "neuro"⟩]
  else []

/-- Rule 35 of `scoreDifferential`: orbital apex syndrome (minimum 6). -/
def rule35_orbitalApex (f : Features) : List Candidate :=
  let c1 := f.hasRAPD
  let c2 := f.discPallor || f.discEdema
  let c3 := f.colorDeficit || f.vaReduced
  let c4 := f.diplopia
  let c5 := f.painful
  let c6 := f.ptosis
  let s : ℤ := (if c1 then 4 else 0) + (if c2 then 2 else 0) + (if c3 then 2 else 0) +
    (if c4 then 2 else 0) + (if c5 then 2 else 0) + (if c6 then 1 else 0)
  let why :=
    (if c1 then ["RAPD (optic nerve involvement - key feature)"] else []) ++
    (if c2 then ["Disc changes (pallor or edema)"] else []) ++
    (if c3 then ["Visual function affected (color/VA)"] else []) ++
    (if c4 then ["Diplopia (EOM involvement)"] else []) ++
    (if c5 then ["Pain"] else []) ++
    (if c6 then ["Ptosis"] else [])
  if 6 ≤ s then
    [⟨"Orbital apex syndrome", s, why,
      ["Orbital apex = cavernous sinus syndrome + optic neuropathy",
       "CN II, III, IV, VI, V1 all affected",
       "MRI orbits and brain with contrast, fat suppression",
       "Etiologies: tumor, infection (mucormycosis in diabetics), inflammation",
       "If diabetic with sinusitis: consider mucormycosis (EMERGENT)",
       "Visual prognosis depends on prompt treatment"], "neuro"⟩]
  else []

/-- Rule 36 of `scoreDifferential`: benign episodic unilateral mydriasis
(minimum 6). -/
def rule36_benignMydriasis (f : Features) : List Candidate :=
  let c1 := largePattern f
  let c2 := !f.anyFixedPupil && largePattern f
  let c3 := !f.diplopia && !f.ptosis && largePattern f
  let c4 := f.painful && largePattern f && !f.ptosis && !f.diplopia
  let c5 := !f.neuroSx && largePattern f
  let s : ℤ := (if c1 then 2 else 0) + (if c2 then 2 else 0) + (if c3 then 3 else 0) +
    (if c4 then 1 else 0) + (if c5 then 1 else 0)
  let why :=
    (if c1 then ["Large pupil pattern"] else []) ++
    (if c2 then ["Pupil still reactive (distinguishes from fixed pathology)"] else []) ++
    (if c3 then ["No diplopia or ptosis (isolated pupil finding)"] else []) ++
    (if c4 then ["Headache present (common association)"] else []) ++
    (if c5 then ["No neurological symptoms"] else [])
  if 6 ≤ s then
    [⟨"Benign episodic unilateral mydriasis", s, why,
      ["Intermittent episodes of unilateral pupil dilation",
       "Pupil typically reactive during episodes",
       "Associated with migraine in many cases",
       "No ptosis, no diplopia, no other neurological signs",
       "Diagnosis of exclusion - rule out CN III pathology first",
       "Reassurance appropriate if workup negative"], "pupil"⟩]
  else []

/-- Rule 37 of `scoreDifferential`: tadpole pupil (minimum 3). -/
def rule37_tadpole (f : Features) : List Candidate :=
  let c1 := smallPattern f || f.dilationLag
  let c2 := !f.acute && (smallPattern f || f.dilationLag)
  let s : ℤ := (if c1 then 3 else 0) + (if c2 then 1 else 0)
  let why :=
    (if c1 then ["Small pupil pattern or dilation lag (associated Horner)"] else []) ++
    (if c2 then ["Chronic/intermittent pattern"] else [])
  if 3 ≤ s then
    [⟨"Tadpole pupil (consider)", s, why,
      ["Segmental iris dilator muscle spasm causing peaked pupil",
       "Often associated with underlying Horner syndrome",
       "Transient distortion of pupil shape",
       "Check for signs of Horner: ptosis, anhidrosis, dilation lag",
       "If Horner confirmed: standard Horner workup indicated"], "pupil"⟩]
  else []

/-- Rule 38 of `scoreDifferential`: internuclear ophthalmoplegia, second
catalog entry (minimum 6). -/
def rule38_ino2 (f : Features) : List Candidate :=
  let c1 := f.adductionDeficit == some true
  let c2 := f.diplopia && f.adductionDeficit == some true
  let c3 := !f.ptosis && f.adductionDeficit == some true
  let c4 := !largePattern f && !smallPattern f && f.adductionDeficit == some true
  let c5 := f.comitant == some false && f.adductionDeficit == some true
  let s : ℤ := (if c1 then 5 else 0) + (if c2 then 2 else 0) + (if c3 then 2 else 0) +
    (if c4 then 2 else 0) + (if c5 then 1 else 0)
  let why :=
    (if c1 then ["Adduction deficit (hallmark of INO)"] else []) ++
    (if c2 then ["Diplopia with adduction deficit"] else []) ++
    (if c3 then ["No ptosis (distinguishes from CN III)"] else []) ++
    (if c4 then ["Pupil-sparing (distinguishes from CN III)"] else []) ++
    (if c5 then ["Incomitant deviation"] else [])
  if 6 ≤ s then
    [⟨"Internuclear ophthalmoplegia (INO)", s, why,
      ["Lesion in MLF (medial longitudinal fasciculus)",
       "Test convergence: typically preserved in INO (distinguishes from CN III)",
       "Look for contralateral abducting nystagmus",
       "Young patient: multiple sclerosis (bilateral INO common)",
       "Older patient: stroke (usually unilateral)",
       "MRI brain with attention to brainstem/MLF"], "eom"⟩]
  else []

/-- Rule 39 of `scoreDifferential`: Duane retraction syndrome, type I
(minimum 6). -/
def rule39_duane1 (f : Features) : List Candidate :=
  let c1 := f.abductionDeficit == some true
  let c2 := !f.acute && f.abductionDeficit == some true
  let c3 := !f.painful && f.abductionDeficit == some true
  let c4 := !largePattern f && !smallPattern f && f.abductionDeficit == some true
  let c5 := !f.diplopia && f.abductionDeficit == some true
  let c6 := f.comitant == some false && f.abductionDeficit == some true
  let s : ℤ := (if c1 then 4 else 0) + (if c2 then 2 else 0) + (if c3 then 1 else 0) +
    (if c4 then 1 else 0) + (if c5 then 1 else 0) + (if c6 then 1 else 0)
  let why :=
    (if c1 then ["Abduction deficit"] else []) ++
    (if c2 then ["Non-acute presentation (congenital)"] else []) ++
    (if c3 then ["Painless"] else []) ++
    (if c4 then ["Pupil-sparing"] else []) ++
    (if c5 then ["No diplopia in primary gaze"] else []) ++
    (if c6 then ["Incomitant deviation"] else [])
  if 6 ≤ s then
    [⟨"Duane retraction syndrome Type I", s, why,
      ["Congenital CN VI aplasia with aberrant CN III innervation to LR",
       "Type I: limited abduction (most common)",
       "Globe retraction and palpebral fissure narrowing on adduction",
       "Usually unilateral (left > right), female predominance",
       "Face turn toward affected side to maintain binocularity",
       "No treatment needed if aligned in primary; surgery for large deviation"], "eom"⟩]
  else []

/-- Rule 40 of `scoreDifferential`: Duane retraction syndrome, type II
(minimum 6). -/
def rule40_duane2 (f : Features) : List Candidate :=
  let c1 := f.adductionDeficit == some true
  let c2 := !f.acute && f.adductionDeficit == some true
  let c3 := !f.painful && f.adductionDeficit == some true
  let c4 := !largePattern f && !smallPattern f && f.adductionDeficit == some true
  let c5 := !f.diplopia && f.adductionDeficit == some true
  let c6 := f.comitant == some false && f.adductionDeficit == some true
  let s : ℤ := (if c1 then 4 else 0) + (if c2 then 2 else 0) + (if c3 then 1 else 0) +
    (if c4 then 1 else 0) + (if c5 then 1 else 0) + (if c6 then 1 else 0)
  let why :=
    (if c1 then ["Adduction deficit"] else []) ++
    (if c2 then ["Non-acute presentation (congenital)"] else []) ++
    (if c3 then ["Painless"] else []) ++
    (if c4 then ["Pupil-sparing"] else []) ++
    (if c5 then ["No diplopia in primary gaze"] else []) ++
    (if c6 then ["Incomitant deviation"] else [])
  if 6 ≤ s then
    [⟨"Duane retraction syndrome Type II", s, why,
      ["Congenital misinnervation of LR by CN III",
       "Type II: limited adduction (less common)",
       "Globe retraction and palpebral fissure narrowing on adduction",
       "Often esotropia in primary with paradoxical upshoot/downshoot",
       "Usually unilateral; face turn to maintain binocularity",
       "Surgery for significant primary position deviation"], "eom"⟩]
  else []

/-- Rule 41 of `scoreDifferential`: Brown syndrome (minimum 4). -/
def rule41_brown (f : Features) : List Candidate :=
  let c1 := f.verticalLimitation == some true
  let c2 := !f.painful && f.verticalLimitation == some true
  let c3 := f.painOnMovement && f.verticalLimitation == some true
  let c4 := !f.ptosis && f.verticalLimitation == some true
  let s : ℤ := (if c1 then 3 else 0) + (if c2 then 1 else 0) +
    (if c3 then 2 else 0) + (if c4 then 1 else 0)
  let why :=
    (if c1 then ["Vertical limitation"] else []) ++
    (if c2 then ["Painless (congenital type)"] else []) ++
    (if c3 then ["Pain on movement (acquired/inflammatory type)"] else []) ++
    (if c4 then ["No ptosis"] else [])
  if 4 ≤ s then
    [⟨"Brown syndrome (consider)", s, why,
      ["Restricted SO tendon: limited elevation in adduction",
       "Positive forced duction test",
       "Congenital: usually stable, observe if small",
       "Acquired: RA, trauma, sinus surgery, inflammation around trochlea",
       "Inflammatory: may respond to steroids or NSAIDs",
       "Surgery if significant hypotropia in primary gaze"], "eom"⟩]
  else []

/-- Rule 42 of `scoreDifferential`: ocular neuromyotonia (minimum 4). -/
def rule42_neuromyotonia (f : Features) : List Candidate :=
  let c1 := f.diplopia
  let c2 := f.abductionDeficit == some true || f.adductionDeficit == some true ||
    f.verticalLimitation == some true
  let c3 := !f.painful && f.diplopia
  let s : ℤ := (if c1 then 2 else 0) + (if c2 then 2 else 0) + (if c3 then 1 else 0)
  let why :=
    (if c1 then ["Diplopia present"] else []) ++
    (if c2 then ["EOM deficit present"] else []) ++
    (if c3 then ["Painless"] else [])
  if 4 ≤ s then
    [⟨"Ocular neuromyotonia (consider)", s, why,
      ["Episodic sustained contraction of EOM (spasm)",
       "Often history of parasellar radiation or skull base surgery",
       "Triggered by sustained gaze in direction of action of affected muscle",
       "Lasts seconds to minutes",
       "Treatment: carbamazepine or other membrane stabilizers",
       "MRI to evaluate prior treatment site"], "eom"⟩]
  else []

/-- Rule 43 of `scoreDifferential`: papilledema (minimum 5). -/
def rule43_papilledema (f : Features) : List Candidate :=
  let c1 := f.discEdema
  let c2 := f.discEdemaOD && f.discEdemaOS
  let c3 := !f.hasRAPD && f.discEdema
  let c4 := f.painful && f.discEdema
  let c5 := f.vf_symptoms && f.discEdema
  let s : ℤ := (if c1 then 4 else 0) + (if c2 then 2 else 0) + (if c3 then 2 else 0) +
    (if c4 then 2 else 0) + (if c5 then 1 else 0)
  let why :=
    (if c1 then ["Disc edema present"] else []) ++
    (if c2 then ["Bilateral disc edema"] else []) ++
    (if c3 then ["No RAPD (symmetric involvement)"] else []) ++
    (if c4 then ["Headache present"] else []) ++
    (if c5 then ["Visual symptoms"] else [])
  if 5 ≤ s then
    [⟨"Papilledema (elevated ICP)", s, why,
      ["Bilateral disc edema from increased intracranial pressure",
       "MRI brain + MRV to rule out mass, venous sinus thrombosis",
       "LP with opening pressure (after imaging rules out mass)",
       "IIH criteria: elevated OP >25cm H2O, normal CSF, no other cause",
       "IIH risk factors: obesity, young woman, vitamin A, tetracyclines",
       "Monitor visual fields - can cause progressive optic neuropathy",
       "Treatment: weight loss, acetazolamide, topiramate; shunt/ONSF if severe"], "optic"⟩]
  else []

/-- Rule 44 of `scoreDifferential`: Leber hereditary optic neuropathy
(minimum 5). -/
def rule44_lhon (f : Features) : List Candidate :=
  let c1 := f.hasRAPD
  let c2 := f.vf_central_scotoma
  let c3 := f.discEdema && !f.painful
  let c4 := f.colorDeficit
  let c5 := !f.painful && (f.hasRAPD || f.vf_central_scotoma || f.colorDeficit)
  let s : ℤ := (if c1 then 2 else 0) + (if c2 then 3 else 0) + (if c3 then 2 else 0) +
    (if c4 then 2 else 0) + (if c5 then 1 else 0)
  let why :=
    (if c1 then ["RAPD present"] else []) ++
    (if c2 then ["Central scotoma"] else []) ++
    (if c3 then ["Disc edema/hyperemia without pain"] else []) ++
    (if c4 then ["Color vision deficit"] else []) ++
    (if c5 then ["Painless (typical for LHON)"] else [])
  if 5 ≤ s then
    [⟨"Leber hereditary optic neuropathy (LHON)", s, why,
      ["Mitochondrial DNA mutations (most common: 11778, 3460, 14484)",
       "Typical: young male with painless sequential vision loss",
       "Exam: circumpapillary telangiectatic vessels, pseudoedema",
       "No disc leakage on FA (distinguishes from true papillitis)",
       "Maternal inheritance pattern - ask family history",
       "Genetic testing for mtDNA mutations",
       "Idebenone may help if started early; avoid smoking, alcohol"], "optic"⟩]
  else []

/-- Rule 45 of `scoreDifferential`: dominant optic atrophy (minimum 5). -/
def rule45_doa (f : Features) : List Candidate :=
  let c1 := f.discPallor
  let c2 := f.colorDeficit
  let c3 := f.vf_central_scotoma
  let c4 := f.discPallorOD && f.discPallorOS
  let c5 := !f.acute && !f.painful && f.discPallor
  let s : ℤ := (if c1 then 3 else 0) + (if c2 then 2 else 0) + (if c3 then 2 else 0) +
    (if c4 then 2 else 0) + (if c5 then 1 else 0)
  let why :=
    (if c1 then ["Disc pallor (optic atrophy)"] else []) ++
    (if c2 then ["Color vision deficit (blue-yellow axis typically)"] else []) ++
    (if c3 then ["Central/cecocentral scotoma"] else []) ++
    (if c4 then ["Bilateral optic atrophy"] else []) ++
    (if c5 then ["Chronic, painless course"] else [])
  if 5 ≤ s then
    [⟨"Dominant optic atrophy (DOA)", s, why,
      ["OPA1 gene mutation (autosomal dominant)",
       "Onset typically in first decade, slowly progressive",
       "Temporal disc pallor, reduced VA (often 20/40-20/200)",
       "Blue-yellow color defects more than red-green",
       "Central or cecocentral scotomas",
       "Family history of vision loss (autosomal dominant)",
       "Genetic testing for OPA1 mutations",
       "No proven treatment; low vision rehabilitation"], "optic"⟩]
  else []

/-- Rule 46 of `scoreDifferential`: toxic/nutritional optic neuropathy
(minimum 5). -/
def rule46_toxicNutritional (f : Features) : List Candidate :=
  let c1 := f.vf_central_scotoma
  let c2 := f.colorDeficit
  let c3 := f.discPallor
  let c4 := (f.colorDeficitOD && f.colorDeficitOS) || (f.discPallorOD && f.discPallorOS)
  let c5 := !f.painful
  let s : ℤ := (if c1 then 3 else 0) + (if c2 then 2 else 0) + (if c3 then 2 else 0) +
    (if c4 then 2 else 0) + (if c5 then 1 else 0)
  let why :=
    (if c1 then ["Central/cecocentral scotoma"] else []) ++
    (if c2 then ["Color vision deficit"] else []) ++
    (if c3 then ["Disc pallor"] else []) ++
    (if c4 then ["Bilateral, symmetric involvement"] else []) ++
    (if c5 then ["Painless"] else [])
  if 5 ≤ s then
    [⟨"Toxic/Nutritional optic neuropathy", s, why,
      ["Common toxins: ethambutol, methanol, ethylene glycol, linezolid",
       "Nutritional: B12, folate, thiamine, copper deficiency",
       "Tobacco-alcohol amblyopia (B12/folate related)",
       "Labs: B12, folate, MMA, homocysteine, CBC, copper, zinc",
       "Cecocentral scotoma typical (involves fixation and blind spot)",
       "Stop offending agent; replete deficiencies",
       "Recovery depends on duration and severity"], "optic"⟩]
  else []

/-- Rule 47 of `scoreDifferential`: optic disc drusen (minimum 4). -/
def rule47_drusen (f : Features) : List Candidate :=
  let c1 := (f.vf_altitudinal || f.vf_respects_horizontal) && !f.hasRAPD
  let c2 := !f.significantRAPD && (f.vf_altitudinal || f.vf_symptoms)
  let c3 := !f.acute && !f.painful
  let c4 := !f.discEdema && !f.discPallor
  let s : ℤ := (if c1 then 3 else 0) + (if c2 then 2 else 0) +
    (if c3 then 1 else 0) + (if c4 then 1 else 0)
  let why :=
    (if c1 then ["Arcuate/altitudinal VF defect without RAPD"] else []) ++
    (if c2 then ["No significant RAPD despite VF changes"] else []) ++
    (if c3 then ["Chronic, stable course"] else []) ++
    (if c4 then ["No true disc edema or pallor"] else [])
  if 4 ≤ s then
    [⟨"Optic disc drusen", s, why,
      ["Calcified deposits in optic nerve head",
       "Can cause pseudopapilledema or be buried (not visible)",
       "VF defects: arcuate, enlarged blind spot, altitudinal",
       "B-scan ultrasound: highly reflective lesions with shadowing",
       "OCT: signal-poor core with hyperreflective margins (EDI-OCT)",
       "Autofluorescence: drusen autofluoresce",
       "Usually benign; monitor VF for rare progressive loss"], "optic"⟩]
  else []

/-- Rule 48 of `scoreDifferential`: retinal artery occlusion (minimum 5). -/
def rule48_rao (f : Features) : List Candidate :=
  let c1 := f.hasRAPD
  let c2 := f.acute
  let c3 := f.vf_altitudinal && f.vf_laterality == "mono"
  let c4 := !f.painful && f.acute && f.hasRAPD
  let s : ℤ := (if c1 then 3 else 0) + (if c2 then 3 else 0) +
    (if c3 then 2 else 0) + (if c4 then 1 else 0)
  let why :=
    (if c1 then ["RAPD present"] else []) ++
    (if c2 then ["Acute onset"] else []) ++
    (if c3 then ["Altitudinal or sectoral VF loss, monocular"] else []) ++
    (if c4 then ["Painless (typical for CRAO)"] else [])
  if 5 ≤ s then
    [⟨"Retinal artery occlusion (CRAO/BRAO)", s, why,
      ["EMERGENT: Acute painless monocular vision loss",
       "Fundus: retinal whitening, cherry red spot (CRAO), cattle-trucking",
       "Time-sensitive: retinal tolerance ~90-120 minutes",
       "Acute CRAO: consider ocular massage, AC paracentesis, IOP lowering",
       "Workup: carotid imaging, echocardiogram, ESR (GCA if >50)",
       "GCA: must rule out if age >50 (ESR/CRP, temporal artery biopsy)",
       "Stroke workup indicated - embolic source evaluation"], "vf"⟩]
  else []

/-- Rule 49 of `scoreDifferential`: retinal vein occlusion (minimum 5). -/
def rule49_rvo (f : Features) : List Candidate :=
  let c1 := f.hasRAPD && f.acute
  let c2 := f.discEdema && f.vf_laterality == "mono"
  let c3 := f.vf_symptoms && f.vf_laterality == "mono"
  let c4 := !f.painful && f.acute
  let s : ℤ := (if c1 then 3 else 0) + (if c2 then 2 else 0) +
    (if c3 then 2 else 0) + (if c4 then 1 else 0)
  let why :=
    (if c1 then ["RAPD with acute onset"] else []) ++
    (if c2 then ["Disc edema, monocular"] else []) ++
    (if c3 then ["Visual symptoms, monocular"] else []) ++
    (if c4 then ["Painless"] else [])
  if 5 ≤ s then
    [⟨"Retinal vein occlusion (CRVO/BRVO)", s, why,
      ["Fundus: dilated tortuous veins, hemorrhages, cotton wool spots, disc edema",
       "CRVO: all quadrants; BRVO: distribution of affected vein",
       "Check for macular edema (OCT) - treat with anti-VEGF",
       "RAPD in ischemic CRVO indicates poor visual prognosis",
       "Monitor for neovascularization (NVI, NVE, NVG)",
       "Workup: HTN, DM, glaucoma, hypercoagulable states if young",
       "Refer retina for anti-VEGF and/or PRP if ischemic"], "vf"⟩]
  else []

/-- Rule 50 of `scoreDifferential`: AZOOR (minimum 4). -/
def rule50_azoor (f : Features) : List Candidate :=
  let c1 := f.vf_symptoms && f.vf_laterality == "mono"
  let c2 := (f.vf_altitudinal || f.vf_respects_horizontal) && !f.hasRAPD
  let c3 := f.acute
  let s : ℤ := (if c1 then 2 else 0) + (if c2 then 2 else 0) + (if c3 then 1 else 0)
  let why :=
    (if c1 then ["Visual symptoms, monocular"] else []) ++
    (if c2 then ["VF defect without significant RAPD"] else []) ++
    (if c3 then ["Acute/subacute onset"] else [])
  if 4 ≤ s then
    [⟨"AZOOR (Acute zonal occult outer retinopathy)", s, why,
      ["White dot syndrome family - photoreceptor dysfunction",
       "Symptoms: photopsias, scotomas, visual field loss",
       "Fundus often normal or minimal changes initially",
       "ERG: reduced a-wave amplitude in affected zones",
       "FAF: hyper/hypo-autofluorescence in affected areas",
       "OCT: loss of ellipsoid zone (photoreceptor damage)",
       "Usually stabilizes; may have recurrences"], "vf"⟩]
  else []

/-- Rule 51 of `scoreDifferential`: Parinaud syndrome (minimum 5). -/
def rule51_parinaud (f : Features) : List Candidate :=
  let c1 := f.verticalLimitation == some true
  let c2 := f.lnd
  let c3 := largePattern f && f.lnd
  let c4 := f.neuroSx
  let s : ℤ := (if c1 then 3 else 0) + (if c2 then 4 else 0) +
    (if c3 then 2 else 0) + (if c4 then 1 else 0)
  let why :=
    (if c1 then ["Vertical gaze limitation (upgaze palsy)"] else []) ++
    (if c2 then ["Light-near dissociation"] else []) ++
    (if c3 then ["Large pupils with LND (Parinaud pattern)"] else []) ++
    (if c4 then ["Neurological symptoms"] else [])
  if 5 ≤ s then
    [⟨"Parinaud syndrome (dorsal midbrain)", s, why,
      ["Dorsal midbrain lesion at level of superior colliculus",
       "Classic findings: upgaze palsy, LND, lid retraction (Collier sign)",
       "Convergence-retraction nystagmus on attempted upgaze",
       "Etiologies: pineal tumor, stroke, MS, hydrocephalus",
       "MRI brain with attention to posterior commissure, pineal region",
       "If hydrocephalus: may need shunting"], "neuro"⟩]
  else []

/-- Rule 52 of `scoreDifferential`: progressive supranuclear palsy
(minimum 5). -/
def rule52_psp (f : Features) : List Candidate :=
  let c1 := f.verticalLimitation == some true
  let c2 := !largePattern f && !smallPattern f && f.verticalLimitation == some true
  let c3 := f.neuroSx
  let c4 := !f.acute && f.verticalLimitation == some true
  let s : ℤ := (if c1 then 3 else 0) + (if c2 then 1 else 0) +
    (if c3 then 2 else 0) + (if c4 then 1 else 0)
  let why :=
    (if c1 then ["Vertical gaze limitation (especially downgaze)"] else []) ++
    (if c2 then ["Pupil-sparing"] else []) ++
    (if c3 then ["Neurological symptoms (postural instability, falls)"] else []) ++
    (if c4 then ["Chronic progressive course"] else [])
  if 5 ≤ s then
    [⟨"Progressive supranuclear palsy (PSP)", s, why,
      ["Neurodegenerative: tau protein accumulation",
       "Vertical gaze palsy (downgaze > upgaze initially)",
       "Square wave jerks, slowed saccades",
       "Postural instability with backward falls",
       "Pseudobulbar affect, dysarthria, dysphagia",
       "MRI: hummingbird sign (midbrain atrophy), Mickey Mouse sign",
       "Neurology referral; supportive care, fall prevention"], "neuro"⟩]
  else []

/-- Rule 53 of `scoreDifferential`: skew deviation (minimum 5). -/
def rule53_skew (f : Features) : List Candidate :=
  let c1 := f.verticalLimitation == some true && f.diplopia
  let c2 := f.comitant == some true && f.diplopia
  let c3 := f.neuroSx
  let c4 := f.acute
  let s : ℤ := (if c1 then 3 else 0) + (if c2 then 2 else 0) +
    (if c3 then 2 else 0) + (if c4 then 2 else 0)
  let why :=
    (if c1 then ["Vertical diplopia with vertical deviation"] else []) ++
    (if c2 then ["Comitant vertical deviation (unlike CN IV palsy)"] else []) ++
    (if c3 then ["Neurological symptoms (brainstem/cerebellar)"] else []) ++
    (if c4 then ["Acute onset"] else [])
  if 5 ≤ s then
    [⟨"Skew deviation", s, why,
      ["Vertical misalignment from brainstem/cerebellar/vestibular lesion",
       "Comitant (same in all gazes) - unlike CN IV palsy",
       "Often part of ocular tilt reaction (head tilt, skew, torsion)",
       "Differentiating from CN IV: head tilt test opposite (skew opposite to CN IV)",
       "Associated with stroke, MS, or posterior fossa lesions",
       "MRI brain with attention to brainstem and cerebellum"], "neuro"⟩]
  else []

/-- Rule 55 of `scoreDifferential` (the last catalog block): chronic
progressive external ophthalmoplegia (minimum 6). -/
def rule55_cpeo (f : Features) : List Candidate :=
  let c1 := f.ptosis
  let c2 := f.diplopia || (f.abductionDeficit == some true ||
    f.adductionDeficit == some true || f.verticalLimitation == some true)
  let c3 := f.ptosis && !f.fatigable
  let c4 := !f.acute && f.ptosis
  let c5 := !largePattern f && !smallPattern f && f.ptosis
  let s : ℤ := (if c1 then 3 else 0) + (if c2 then 2 else 0) + (if c3 then 2 else 0) +
    (if c4 then 2 else 0) + (if c5 then 1 else 0)
  let why :=
    (if c1 then ["Ptosis present"] else []) ++
    (if c2 then ["EOM limitation"] else []) ++
    (if c3 then ["Non-fatigable (distinguishes from MG)"] else []) ++
    (if c4 then ["Chronic progressive course"] else []) ++
    (if c5 then ["Pupil-sparing"] else [])
  if 6 ≤ s then
    [⟨"Chronic progressive external ophthalmoplegia (CPEO)", s, why,
      ["Mitochondrial myopathy affecting EOM and levator",
       "Bilateral, symmetric ptosis and ophthalmoplegia",
       "Slowly progressive over years; often no diplopia (symmetric)",
       "May have orbicularis weakness, pigmentary retinopathy",
       "Kearns-Sayre: CPEO + pigmentary retinopathy + heart block + onset <20",
       "Genetic testing for mtDNA deletions",
       "Cardiac evaluation important (heart block in KSS)"], "eom"⟩]
  else []

/-- The candidate list `dx` as accumulated by `scoreDifferential`, in
catalog order, before the final sort / filter / truncation. -/
def dxRaw (f : Features) : List Candidate :=
  rule01_physiologicAnisocoria f ++ rule02_horner f ++ rule03_cn3Compressive f ++
  rule04_cn3Ischemic f ++ rule05_adie f ++ rule06_pharmacologic f ++
  rule07_traumaticMydriasis f ++ rule08_argyllRobertson f ++ rule09_traumaticON f ++
  rule10_compressiveON f ++ rule11_opticAtrophy f ++ rule12_cn6 f ++ rule13_cn4 f ++
  rule14_myasthenia f ++ rule15_ino f ++ rule16_ted f ++ rule17_orbitalInflammatory f ++
  rule18_cavernousSinus f ++ rule19_chiasmal f ++ rule20_opticTract f ++ rule21_lgn f ++
  rule22_opticRadiation f ++ rule23_occipital f ++ rule24_aion f ++ rule25_naion f ++
  rule26_opticNeuritis f ++ rule27_macular f ++ rule28_glaucoma f ++ rule29_functional f ++
  rule30_millerFisher f ++ rule31_wernicke f ++ rule32_tedGraves f ++ rule33_pseudotumor f ++
  rule34_cavernousSinus2 f ++ rule35_orbitalApex f ++ rule36_benignMydriasis f ++
  rule37_tadpole f ++ rule38_ino2 f ++ rule39_duane1 f ++ rule40_duane2 f ++
  rule41_brown f ++ rule42_neuromyotonia f ++ rule43_papilledema f ++ rule44_lhon f ++
  rule45_doa f ++ rule46_toxicNutritional f ++ rule47_drusen f ++ rule48_rao f ++
  rule49_rvo f ++ rule50_azoor f ++ rule51_parinaud f ++ rule52_psp f ++
  rule53_skew f ++ rule55_cpeo f

/-- Stable insertion step for an ascending sort by the rank `r`. An element
goes in front of the first resident whose rank is not smaller, so residents
of equal rank that were inserted later stay behind it. -/
def insertRank {α : Type} (r : α → ℤ) (x : α) : List α → List α
  | [] => [x]
  | y :: l => if r x ≤ r y then x :: y :: l else y :: insertRank r x l

/-- Stable insertion sort, ascending by the rank `r`. With
`r := fun c => -c.score` it is observationally the stable
`dx.sort((a, b) => b.score - a.score)` of the source; with a priority rank it
is the stable `tests.sort(...)`. -/
def sortRank {α : Type} (r : α → ℤ) : List α → List α
  | [] => []
  | x :: l => insertRank r x (sortRank r l)

/-- Function `scoreDifferential(f)`: run the catalog, sort by score
descending (stable), keep the strictly positive scores, truncate to 12. -/
def scoreDifferential (f : Features) : List Candidate :=
  ((sortRank (fun c => -c.score) (dxRaw f)).filter fun d => 0 < d.score).take 12

/-- A record pushed by `addTest(name, priority, rationale, technique)` in
`generateTestingRecommendations`. -/
structure TestRec where
  name : String
  priority : String
  rationale : String
  technique : Option String
deriving DecidableEq, Repr

/-- The ordered sequence of `addTest` attempts made by
`generateTestingRecommendations` for a feature set, before deduplication:
every guarded call site of the source, in source order. -/
def testAttempts (f : Features) : List TestRec :=
  (if (f.suspectedOpticNeuropathy || f.vf_central_scotoma || f.vf_altitudinal ||
      f.discPallor || f.colorDeficit || f.vaReduced) && !f.hasRAPD then
    [⟨"Swinging Flashlight Test (RAPD Assessment)", "high",
      "Optic nerve pathology suspected - RAPD is the most sensitive clinical sign of unilateral or asymmetric optic neuropathy",
      some "In dim room, swing light between eyes every 2-3 seconds. Watch for paradoxical dilation when light shines on affected eye. Grade 1+ to 4+."⟩]
   else []) ++
  (if f.hasRAPD || f.discPallor || f.vf_central_scotoma || f.trauma then
    [⟨"Red Cap Desaturation Test", "high",
      "Quick bedside screen for optic neuropathy - color vision affected early and often disproportionately to VA",
      some "Hold red target at equal distance from both eyes. Ask patient to rate ’redness’ of each eye as percentage. >25% asymmetry suggests optic neuropathy."⟩,
     ⟨"Ishihara or HRR Color Plates", "high",
      "Quantitative color vision assessment - dyschromatopsia in optic neuropathy typically red-green (acquired) vs blue-yellow (macular)",
      some "Test each eye separately in good lighting. Document number of plates correct. Compare to expected for VA level."⟩]
   else []) ++
  (if f.hasRAPD && f.discPallor then
    [⟨"OCT RNFL Analysis", "high",
      "RAPD + disc pallor indicates optic nerve damage - OCT quantifies RNFL loss and helps localize (sectoral vs diffuse)",
      some "Standard circumpapillary RNFL scan. Look for thinning pattern: temporal in ON, superior/inferior in glaucoma, band atrophy in chiasmal."⟩,
     ⟨"OCT Ganglion Cell Analysis", "moderate",
      "GCL-IPL thinning may precede visible pallor and correlates with visual field loss",
      some "Macular cube scan with GCC/GCL analysis. Compare to normative database."⟩]
   else []) ++
  (if f.trauma && (f.hasRAPD || f.discPallor || f.colorDeficit || f.vaReduced) then
    [⟨"Red Cap Desaturation Test", "critical",
      "URGENT: Traumatic optic neuropathy suspected - early identification critical for potential intervention",
      some "Compare red saturation between eyes. Document baseline for serial monitoring."⟩,
     ⟨"Monocular Color Vision (Ishihara)", "critical",
      "Quantify color deficit in each eye separately - important baseline for monitoring recovery or progression",
      some "Test each eye monocularly. Record number correct out of total plates."⟩,
     ⟨"Visual Acuity with Refraction", "critical",
      "Document best-corrected VA in each eye - pinhole if refraction not available",
      some "Snellen or ETDRS. Document lighting conditions and testing distance."⟩,
     ⟨"CT Orbits and Optic Canal", "critical",
      "Assess for optic canal fracture, orbital hemorrhage, or bone fragment impingement",
      some "Thin-cut CT (1-2mm) through orbits and optic canals. Axial and coronal reformats."⟩]
   else []) ++
  (if f.dominance == some "light" && (f.ptosis || f.diplopia || f.acute || f.painful) then
    [⟨"Complete Cranial Nerve Exam", "critical",
      "Large pupil + ptosis/diplopia - must rule out CN III compression (aneurysm)",
      some "Test all EOMs in 9 positions of gaze. Check CN V sensation, VII function."⟩]
   else []) ++
  (if f.dominance == some "light" && (f.lnd || f.vermiform) then
    [⟨"Dilute Pilocarpine Test (0.0625-0.125%)", "high",
      "Light-near dissociation suggests Adie pupil - test for denervation supersensitivity",
      some "Instill dilute pilocarpine in both eyes. Adie pupil constricts more than normal due to cholinergic supersensitivity. Wait 30-45 min."⟩]
   else []) ++
  (if f.dominance == some "light" && !f.ptosis && !f.diplopia && !f.lnd then
    [⟨"Pilocarpine 1% Test", "high",
      "To differentiate Adie vs pharmacologic mydriasis",
      some "Adie pupil constricts to pilocarpine 1%; pharmacologically blocked pupil (atropine) does NOT. Wait 30-45 min."⟩]
   else []) ++
  (if f.dominance == some "dark" then
    [⟨"Apraclonidine 0.5% Test", "high",
      "Confirm Horner syndrome - denervation supersensitivity causes Horner pupil to dilate, reversing anisocoria",
      some "Instill in both eyes, wait 45-60 min. Reversal of anisocoria (affected pupil dilates more) confirms Horner. Sensitivity ~90%."⟩,
     ⟨"Cocaine 4-10% Test", "moderate",
      "Alternative Horner confirmation - blocks NE reuptake; normal pupil dilates, Horner pupil fails to dilate",
      some "Instill both eyes, wait 45-60 min. Anisocoria ≥1mm confirms Horner. Gold standard but cocaine availability limited."⟩]
   else []) ++
  (if f.dominance == some "dark" && (f.acute || f.painful) then
    [⟨"CTA or MRA Head/Neck", "critical",
      "URGENT: Acute painful Horner - must rule out carotid dissection",
      some "CTA from aortic arch through circle of Willis. Look for: dissection flap, intramural hematoma, luminal stenosis."⟩]
   else []) ++
  (if f.discEdema then
    [⟨"Fundus Photography", "high",
      "Document disc edema for baseline and serial comparison",
      some "Stereo disc photos if available. Document blurring of disc margins, elevation, hemorrhages, cotton wool spots."⟩,
     ⟨"B-scan Ultrasonography", "moderate",
      "Assess for papilledema vs pseudopapilledema - look for drusen, elevated nerve sheath",
      some "30-degree test: pseudopapilledema maintains brightness on tilting; true edema does not. Check for drusen signal."⟩]
   else []) ++
  (if f.discEdema && !f.painful then
    [⟨"MRI Brain with MRV", "high",
      "Bilateral disc edema without pain - evaluate for increased ICP, venous sinus thrombosis",
      some "Look for empty sella, optic nerve sheath dilation, venous sinus stenosis/thrombosis."⟩]
   else []) ++
  (if f.optociliaryShunts then
    [⟨"MRI Orbits with Contrast", "critical",
      "Optociliary shunt vessels suggest chronic optic nerve compression - rule out optic nerve sheath meningioma",
      some "Thin cuts through orbits with gadolinium. Look for enhancing mass, ’tram-track’ sign."⟩]
   else []) ++
  (if f.diplopia then
    [⟨"Cover/Uncover and Alternating Cover Test", "high",
      "Quantify and characterize the deviation - tropia vs phoria",
      some "Primary position and 8 cardinal gazes. Note comitance pattern."⟩,
     ⟨"Prism Cover Testing", "high",
      "Quantify deviation in prism diopters for monitoring and treatment planning",
      some "Measure in primary, up, down, left, right gazes. Document near and distance."⟩]
   else []) ++
  (if f.fatigable then
    [⟨"Sustained Upgaze Test", "high",
      "Screen for myasthenia gravis - fatigable ptosis worsens over 1-2 minutes",
      some "Have patient look up at target for 2 minutes. Watch for progressive ptosis. Positive if ptosis worsens."⟩,
     ⟨"Ice Pack Test", "high",
      "Bedside MG test - cooling improves neuromuscular transmission",
      some "Apply ice pack to closed lid for 2 minutes. Measure ptosis before/after. Improvement ≥2mm suggests MG."⟩,
     ⟨"Anti-AChR Antibodies", "high",
      "Serologic confirmation of MG - positive in ~50% of ocular MG",
      some "Also consider anti-MuSK antibodies if AChR negative and clinical suspicion high."⟩]
   else []) ++
  (if f.verticalLimitation == some true && !f.ptosis && !(f.abductionDeficit == some true) then
    [⟨"Parks-Bielschowsky Three-Step Test", "high",
      "Localize which oblique/vertical rectus is affected in CN IV palsy",
      some "Step 1: Which eye higher? Step 2: Worse in R or L gaze? Step 3: Worse with R or L head tilt?"⟩,
     ⟨"Double Maddox Rod Test", "moderate",
      "Quantify torsion - important in CN IV palsy diagnosis",
      some "Red and white Maddox rods. Measure cyclotorsion in degrees."⟩]
   else []) ++
  (if f.vf_bitemporal then
    [⟨"MRI Pituitary with Contrast", "critical",
      "Bitemporal hemianopia indicates chiasmal compression until proven otherwise",
      some "Dedicated pituitary protocol with thin cuts. Assess for adenoma, meningioma, craniopharyngioma."⟩,
     ⟨"Pituitary Hormone Panel", "high",
      "Assess for endocrine dysfunction from pituitary mass",
      some "Prolactin, TSH, free T4, cortisol (AM), ACTH, IGF-1, LH, FSH, testosterone/estradiol."⟩]
   else []) ++
  (if f.vf_homonymous && f.acute then
    [⟨"STAT MRI Brain (or CT if MRI unavailable)", "critical",
      "Acute homonymous defect - stroke until proven otherwise",
      some "DWI/ADC for acute stroke. Establish last known well time for treatment decisions."⟩]
   else []) ++
  (if f.vf_altitudinal && f.hasRAPD then
    [⟨"ESR and CRP (STAT if age >50)", "critical",
      "AION pattern with RAPD - must rule out giant cell arteritis urgently",
      some "ESR >50 and/or CRP elevated highly suggestive. Consider empiric steroids pending biopsy if clinical suspicion high."⟩,
     ⟨"Temporal Artery Biopsy", "high",
      "Definitive test for GCA if ESR/CRP elevated or clinical suspicion high",
      some "Unilateral biopsy (2-3cm length) within 2 weeks of starting steroids. Steroids don’t mask pathology quickly."⟩]
   else []) ++
  (if 4 ≤ (if f.hasRAPD then 2 else 0) + (if f.discPallor then 2 else 0) +
      (if f.colorDeficit then 1 else 0) + (if f.vaReduced then 1 else 0) +
      (if f.trauma then 2 else 0) + (if f.painful then 1 else 0) +
      (if f.acute then (1 : ℤ) else 0) then
    [⟨"Comprehensive Neuro-Ophthalmic Examination", "high",
      "Multiple findings suggest optic nerve or neurological pathology - systematic evaluation recommended",
      some "VA, color vision, pupils (including RAPD), confrontation VF, motility, fundoscopy, formal VF, OCT."⟩]
   else [])

/-- One `addTest` step: skip the record when its name is already present. -/
def addTestStep (tests : List TestRec) (t : TestRec) : List TestRec :=
  if tests.any fun u => u.name == t.name then tests else tests ++ [t]

/-- The `tests` array after all `addTest` calls ran (first record with a
given name wins). -/
def dedupTests (l : List TestRec) : List TestRec := l.foldl addTestStep []

/-- The lookup `priorityOrder[p]` on the object
`{ critical: 0, high: 1, moderate: 2, low: 3 }`. -/
def priorityOrder : String → Option ℤ
  | "critical" => some 0
  | "high" => some 1
  | "moderate" => some 2
  | "low" => some 3
  | _ => none

/-- JavaScript `x || d` applied to an optional number: `undefined` and the
falsy number 0 both fall through to the default. -/
def jsOrNum (x : Option ℤ) (d : ℤ) : ℤ :=
  match x with
  | some n => if n = 0 then d else n
  | none => d

/-- The comparator rank `(priorityOrder[t.priority] || 3)` of the final
`tests.sort`. Because 0 is falsy, "critical" ranks as 3, not 0. -/
def testRank (t : TestRec) : ℤ := jsOrNum (priorityOrder t.priority) 3

/-- Function `generateTestingRecommendations(f, differential)` of engine.js.
The `differential` argument is accepted and ignored, as in the source. -/
def generateTestingRecommendations (f : Features) (_differential : List Candidate) :
    List TestRec :=
  sortRank testRank (dedupTests (testAttempts f))

/-- An urgency banner `{ level, text }`. -/
structure Urgency where
  level : String
  text : String
deriving DecidableEq, Repr

/-- One guard of the urgency cascade: a predicate over the derived features
together with the banner it assigns. -/
structure Guard where
  pred : Features → Bool
  level : String
  text : String

/-- The urgency cascade of `compute`, in source order (the single
if / else-if chain, critical guards first). -/
def urgencyGuards : List Guard :=
  [⟨fun f => f.dominance == some "light" && f.ptosis &&
      (f.acute || f.painful) && (f.diplopia || f.neuroSx), "critical",
    "CRITICAL: Pattern strongly suggests compressive CN III palsy. EMERGENT CTA/MRA head required to exclude posterior communicating artery aneurysm."⟩,
   ⟨fun f => f.dominance == some "dark" && (f.acute && f.painful) &&
      (f.dilationLag || f.ptosis || f.anhidrosis), "critical",
    "CRITICAL: Acute painful Horner syndrome. EMERGENT carotid imaging (CTA/MRA neck) required to exclude carotid artery dissection."⟩,
   ⟨fun f => f.vf_altitudinal && f.hasRAPD && f.painful && f.acute, "critical",
    "CRITICAL: Acute painful AION with RAPD. If age >50, start empiric high-dose steroids and obtain STAT ESR/CRP. GCA can cause bilateral blindness within days."⟩,
   ⟨fun f => f.trauma && f.hasRAPD && (f.discPallor || f.colorDeficit || f.vaReduced),
    "critical",
    "CRITICAL: Traumatic optic neuropathy suspected. Document baseline VA, color vision, RAPD. Consider CT orbits/optic canals. Serial monitoring essential."⟩,
   ⟨fun f => f.dominance == some "light" && (f.ptosis || f.diplopia) &&
      (f.acute || f.painful || f.neuroSx), "danger",
    "High concern: Large pupil pattern with acute/painful presentation + ptosis/diplopia. Consider compressive CN III - imaging indicated."⟩,
   ⟨fun f => f.vf_homonymous && f.acute, "danger",
    "URGENT: Acute homonymous visual field defect suggests stroke. Activate stroke protocol, establish last known well time."⟩,
   ⟨fun f => f.hasRAPD && f.discPallor && !f.trauma, "danger",
    "RAPD with disc pallor indicates optic nerve damage. MRI brain/orbits recommended to evaluate for compressive or inflammatory etiology."⟩,
   ⟨fun f => f.dominance == some "dark" &&
      (f.dilationLag || f.ptosis || f.anhidrosis) &&
      (f.acute || f.painful || f.neuroSx), "warn",
    "Elevated concern: Small pupil pattern with sympathetic signs in acute/painful setting. Consider Horner syndrome workup including vascular imaging."⟩,
   ⟨fun f => f.fatigable && (f.ptosis || f.diplopia), "warn",
    "Fatigable weakness pattern raises concern for myasthenia gravis. Recommend serology and consider pyridostigmine trial."⟩,
   ⟨fun f => f.hasRAPD && !f.discPallor && !f.discEdema, "warn",
    "RAPD detected without visible disc changes. Consider retrobulbar optic neuropathy, optic tract lesion, or asymmetric retinal disease. Color vision and VF testing recommended."⟩,
   ⟨fun f => f.vf_bitemporal && !(f.vf_reliability == "poor"), "info",
    "Bitemporal visual field pattern suggests chiasmal pathology. MRI pituitary/sella with contrast recommended."⟩,
   ⟨fun f => f.vf_central_scotoma && f.painOnMovement, "info",
    "Central scotoma with pain on eye movement suggests optic neuritis. MRI brain/orbits with contrast recommended."⟩,
   ⟨fun f => f.colorDeficit && f.hasRAPD, "info",
    "Color deficit with RAPD suggests optic neuropathy. Recommend formal VF testing and OCT RNFL."⟩,
   ⟨fun f => f.acute || f.painful || f.neuroSx, "info",
    "Acute/painful/neurological context noted. Continue entering findings to refine localization."⟩]

/-- First guard of a cascade whose predicate holds (the if / else-if chain). -/
def firstSatisfied (f : Features) : List Guard → Option Guard
  | [] => none
  | g :: gs => if g.pred f then some g else firstSatisfied f gs

/-- The record returned by `compute(session)`. -/
structure ComputeResult where
  features : Features
  differential : List Candidate
  urgency : Urgency
  testingRecommendations : List TestRec
deriving Repr

/-- Function `compute(session)` of engine.js. -/
def compute (s : Session) : ComputeResult :=
  let features := deriveFeatures s
  let pupilReady := hasFullPupilDataset s
  let eomReady := hasEOMData s
  let vfReady := hasVFData s
  let opticNerveReady := hasOpticNerveData s
  let differential :=
    if pupilReady || eomReady || vfReady || opticNerveReady then
      scoreDifferential features
    else []
  let testingRecommendations := generateTestingRecommendations features differential
  let urgency :=
    match firstSatisfied features urgencyGuards with
    | some g => ⟨g.level, g.text⟩
    | none =>
        if !pupilReady && !eomReady && !vfReady && !opticNerveReady then
          ⟨"none", "Enter clinical findings in any module to generate differential diagnoses."⟩
        else
          ⟨"none", "Enter findings to build a live differential."⟩
  ⟨features, differential, urgency, testingRecommendations⟩

/-- Membership in `insertRank` is membership in the inserted element or the list. -/
theorem mem_insertRank {α : Type} (r : α → ℤ) (x a : α) (l : List α) :
    a ∈ insertRank r x l ↔ a = x ∨ a ∈ l := by
  induction l with
  | nil => simp [insertRank]
  | cons y l ih =>
      by_cases h : r x ≤ r y
      · rw [insertRank, if_pos h]
        simp only [List.mem_cons]
      · rw [insertRank, if_neg h]
        simp only [List.mem_cons, ih]
        tauto

/-- Inserting with `insertRank` preserves sortedness by the rank. -/
theorem pairwise_insertRank {α : Type} (r : α → ℤ) (x : α) (l : List α)
    (hl : l.Pairwise fun a b => r a ≤ r b) :
    (insertRank r x l).Pairwise fun a b => r a ≤ r b := by
  induction l with
  | nil => simp [insertRank]
  | cons y l ih =>
      rcases List.pairwise_cons.mp hl with ⟨hy, hl'⟩
      by_cases h : r x ≤ r y
      · rw [insertRank, if_pos h]
        refine List.Pairwise.cons ?_ hl
        intro z hz
        rcases List.mem_cons.mp hz with rfl | hz'
        · exact h
        · exact le_trans h (hy z hz')
      · rw [insertRank, if_neg h]
        refine List.Pairwise.cons ?_ (ih hl')
        intro z hz
        rcases (mem_insertRank r x z l).mp hz with rfl | hz'
        · exact le_of_lt (lt_of_not_le h)
        · exact hy z hz'

/-- The stable insertion sort output is sorted (ascending in the rank). -/
theorem pairwise_sortRank {α : Type} (r : α → ℤ) (l : List α) :
    (sortRank r l).Pairwise fun a b => r a ≤ r b := by
  induction l with
  | nil => simp [sortRank]
  | cons x l ih => exact pairwise_insertRank r x _ ih

/-- Stability of `insertRank`, expressed on the rank-k slice: inserting an
element of rank k puts it exactly at the front of the slice (it passes only
strictly smaller ranks), and inserting any other rank leaves the slice
untouched. -/
theorem filter_insertRank {α : Type} (r : α → ℤ) (k : ℤ) (x : α) (l : List α) :
    (insertRank r x l).filter (fun a => r a == k) =
      if r x = k then x :: l.filter (fun a => r a == k)
      else l.filter (fun a => r a == k) := by
  induction l with
  | nil => by_cases h : r x = k <;> simp [insertRank, h]
  | cons y l ih =>
      by_cases h : r x ≤ r y
      · rw [insertRank, if_pos h]
        by_cases hx : r x = k <;> simp [List.filter_cons, hx]
      · rw [insertRank, if_neg h]
        rw [List.filter_cons, List.filter_cons, ih]
        by_cases hx : r x = k
        · have hy : (r y == k) = false := by
            have hlt : r y < r x := lt_of_not_le h
            simp only [beq_eq_false_iff_ne, ne_eq]
            omega
          simp [hx, hy]
        · have hxb : (r x == k) = false := by simp [beq_eq_false_iff_ne, hx]
          simp [hx, hxb]

/-- Stability of the sort: the subsequence of elements of any fixed rank k is
unchanged by sorting. -/
theorem filter_sortRank {α : Type} (r : α → ℤ) (k : ℤ) (l : List α) :
    (sortRank r l).filter (fun a => r a == k) = l.filter (fun a => r a == k) := by
  induction l with
  | nil => rfl
  | cons x l ih =>
      rw [sortRank, filter_insertRank, List.filter_cons]
      by_cases hx : r x = k
      · simp [hx, ih]
      · have hxb : (r x == k) = false := by simp [beq_eq_false_iff_ne, hx]
        simp [hx, hxb, ih]

/-- After the positivity filter, the slice at a non-positive score is empty. -/
theorem scoreFilter_neg (l : List Candidate) (k : ℤ) (hk : ¬ 0 < k) :
    (l.filter fun d => 0 < d.score).filter (fun d => d.score == k) = [] := by
  rw [List.filter_filter]
  refine List.filter_eq_nil_iff.mpr ?_
  intro a _
  by_cases hak : a.score = k
  · simp [hak, hk]
  · simp [hak]

/-- Core of the ranking invariant: in the sorted, positively filtered,
truncated candidate list, the candidates of any fixed score k form a prefix
of the catalog-ordered candidates of score k. -/
theorem stable_core (l : List Candidate) (k : ℤ) :
    ∃ t, ((((sortRank (fun c => -c.score) l).filter fun d => 0 < d.score).take 12).filter
      (fun d => d.score == k)) ++ t = l.filter (fun d => d.score == k) := by
  have h1 : ((((sortRank (fun c => -c.score) l).filter fun d => 0 < d.score).take 12).filter
      (fun d => d.score == k)) <+:
      (((sortRank (fun c => -c.score) l).filter fun d => 0 < d.score).filter
        (fun d => d.score == k)) :=
    (List.take_prefix 12 _).filter _
  by_cases hk : 0 < k
  · have h2 : (((sortRank (fun c => -c.score) l).filter fun d => 0 < d.score).filter
        (fun d => d.score == k)) =
        (sortRank (fun c => -c.score) l).filter
          (fun d => (d.score == k) && decide (0 < d.score)) :=
      List.filter_filter ..
    have h3 : (sortRank (fun c => -c.score) l).filter
        (fun d => (d.score == k) && decide (0 < d.score)) =
        (sortRank (fun c => -c.score) l).filter (fun d => (-d.score) == (-k)) := by
      refine List.filter_congr ?_
      intro a _
      by_cases hak : a.score = k
      · have hneg : (-a.score) = -k := by omega
        simp [hak, hk, hneg]
      · have h5 : (a.score == k) = false := by simp [beq_eq_false_iff_ne, hak]
        have h6 : ((-a.score) == (-k)) = false := by
          simp only [beq_eq_false_iff_ne, ne_eq]
          omega
        simp [h5, h6]
    have h4 : (sortRank (fun c => -c.score) l).filter (fun d => (-d.score) == (-k)) =
        l.filter (fun d => (-d.score) == (-k)) :=
      filter_sortRank (fun c : Candidate => -c.score) (-k) l
    have h7 : l.filter (fun d => (-d.score) == (-k)) = l.filter (fun d => d.score == k) := by
      refine List.filter_congr ?_
      intro a _
      by_cases hak : a.score = k
      · have hneg : (-a.score) = -k := by omega
        simp [hak, hneg]
      · have h5 : (a.score == k) = false := by simp [beq_eq_false_iff_ne, hak]
        have h6 : ((-a.score) == (-k)) = false := by
          simp only [beq_eq_false_iff_ne, ne_eq]
          omega
        simp [h5, h6]
    obtain ⟨t, ht⟩ := h1
    exact ⟨t, by rw [ht, h2, h3, h4, h7]⟩
  · have h2 : (((sortRank (fun c => -c.score) l).filter fun d => 0 < d.score).filter
        (fun d => d.score == k)) = [] :=
      scoreFilter_neg (sortRank (fun c => -c.score) l) k hk
    have h3 := h1
    rw [h2] at h3
    rw [List.prefix_nil.mp h3]
    exact ⟨l.filter (fun d => d.score == k), rfl⟩


/-- Truncating a filtered list keeps every element satisfying the filter. -/
theorem posLemma {α : Type} (p : α → Bool) (n : ℕ) (l : List α) :
    ((l.filter p).take n).filter p = (l.filter p).take n :=
  List.filter_eq_self.mpr fun _ ha => List.of_mem_filter (List.take_subset _ _ ha)

/-- The sorted, filtered, truncated candidate list is sorted by score
descending. -/
theorem pairLemma (l : List Candidate) (n : ℕ) :
    (((sortRank (fun c => -c.score) l).filter fun d => 0 < d.score).take n).Pairwise
      (fun a b => b.score ≤ a.score) :=
  ((pairwise_sortRank (fun c : Candidate => -c.score) l).imp
    (fun h => by omega)).sublist ((List.take_sublist _ _).trans (List.filter_sublist _))

/-- C4: every candidate returned by `scoreDifferential` has a strictly
positive score, the list is sorted by score descending with ties preserving
catalog order (for each score value k, the returned slice of score k is a
prefix of the catalog-ordered slice of score k in `dxRaw`), and its length
never exceeds 12. -/
theorem scoreDifferential_invariants (f : Features) :
    (scoreDifferential f).length ≤ 12 ∧
    (scoreDifferential f).filter (fun d => 0 < d.score) = scoreDifferential f ∧
    (scoreDifferential f).Pairwise (fun a b => b.score ≤ a.score) ∧
    ∀ k : ℤ, ∃ t, (scoreDifferential f).filter (fun d => d.score == k) ++ t =
      (dxRaw f).filter (fun d => d.score == k) :=
  ⟨List.length_take_le 12 _, posLemma _ 12 _, pairLemma (dxRaw f) 12,
    fun k => stable_core (dxRaw f) k⟩

theorem mkDominance_light_iff (aL aD : Option ℚ) :
    mkDominance aL aD = some "light" ↔
      ∃ a, aL = some a ∧ ANISO_THRESHOLD_MM ≤ a ∧
        (aD = none ∨ ∃ b, aD = some b ∧ b < a) := by
  rcases aL with _ | a <;> rcases aD with _ | b <;>
    simp only [mkDominance, Option.any_none, Option.any_some, Bool.false_or,
      Bool.or_false, Option.some.injEq, reduceCtorEq] <;>
    split_ifs <;> simp_all <;> (try intro hx) <;> (try rcases ‹_ ∨ _› with hy | hy) <;> linarith

/-- Dominance is "dark" exactly when dark-anisocoria exists, meets the
threshold, and light-anisocoria is missing or strictly smaller. -/
theorem mkDominance_dark_iff (aL aD : Option ℚ) :
    mkDominance aL aD = some "dark" ↔
      ∃ b, aD = some b ∧ ANISO_THRESHOLD_MM ≤ b ∧
        (aL = none ∨ ∃ a, aL = some a ∧ a < b) := by
  rcases aL with _ | a <;> rcases aD with _ | b <;>
    simp only [mkDominance, Option.any_none, Option.any_some, Bool.false_or,
      Bool.or_false, Option.some.injEq, reduceCtorEq] <;>
    split_ifs <;> simp_all <;> (try intro hx) <;> (try rcases ‹_ ∨ _› with hy | hy) <;> linarith

/-- Dominance is "equal" exactly when both anisocoria values exist, are
equal, and at least one meets the threshold. -/
theorem mkDominance_equal_iff (aL aD : Option ℚ) :
    mkDominance aL aD = some "equal" ↔
      ∃ a b, aL = some a ∧ aD = some b ∧ a = b ∧
        (ANISO_THRESHOLD_MM ≤ a ∨ ANISO_THRESHOLD_MM ≤ b) := by
  rcases aL with _ | a <;> rcases aD with _ | b <;>
    simp only [mkDominance, Option.any_none, Option.any_some, Bool.false_or,
      Bool.or_false, Option.some.injEq, reduceCtorEq] <;>
    split_ifs <;> simp_all <;> (try intro hx) <;> (try rcases ‹_ ∨ _› with hy | hy) <;> linarith

/-- Dominance takes only the four values null / light / dark / equal. -/
theorem mkDominance_cases (aL aD : Option ℚ) :
    mkDominance aL aD = none ∨ mkDominance aL aD = some "light" ∨
      mkDominance aL aD = some "dark" ∨ mkDominance aL aD = some "equal" := by
  rcases aL with _ | a <;> rcases aD with _ | b <;>
    simp only [mkDominance, Option.any_none, Option.any_some] <;>
    split_ifs <;> simp

/-- The dominance feature is the dominance computation applied to the two
derived anisocoria values. -/
theorem deriveFeatures_dominance (s : Session) :
    (deriveFeatures s).dominance =
      mkDominance (deriveFeatures s).anisL (deriveFeatures s).anisD := rfl

/-- Severity rank of an urgency level: none < info < warn < danger < critical. -/
def sevRank : String → ℕ
  | "critical" => 4
  | "danger" => 3
  | "warn" => 2
  | "info" => 1
  | _ => 0

/-- The first satisfied guard is the head of the satisfied sublist. -/
theorem firstSatisfied_eq (f : Features) (gs : List Guard) :
    firstSatisfied f gs = (gs.filter fun g => g.pred f).head? := by
  induction gs with
  | nil => rfl
  | cons g gs ih =>
      by_cases h : g.pred f
      · simp [firstSatisfied, List.filter_cons, h]
      · simp [firstSatisfied, List.filter_cons, h, ih]

/-- The urgency cascade is ordered by non-increasing severity. -/
theorem guards_pairwise :
    urgencyGuards.Pairwise fun a b => sevRank b.level ≤ sevRank a.level := by
  have h : (urgencyGuards.map fun g => sevRank g.level).Pairwise
      (fun a b : ℕ => b ≤ a) := by
    have he : (urgencyGuards.map fun g => sevRank g.level) =
        [4, 4, 4, 4, 3, 3, 3, 2, 2, 2, 1, 1, 1, 1] := rfl
    rw [he]
    decide
  exact List.pairwise_map.mp h

/-- In a severity-sorted cascade, the first satisfied guard has maximal
severity among all satisfied guards. -/
theorem firstSat_max {gs : List Guard} {f : Features} {g : Guard}
    (hp : gs.Pairwise fun a b => sevRank b.level ≤ sevRank a.level)
    (hg : (gs.filter fun g => g.pred f).head? = some g) :
    ∀ g' ∈ gs, g'.pred f = true → sevRank g'.level ≤ sevRank g.level := by
  induction gs with
  | nil => simp at hg
  | cons g0 gs ih =>
      rcases List.pairwise_cons.mp hp with ⟨h0, hp'⟩
      by_cases hpred : g0.pred f
      · have hgg : g = g0 := by
          simp [List.filter_cons, hpred] at hg
          exact hg.symm
        subst hgg
        intro g' hg' hpred'
        rcases List.mem_cons.mp hg' with rfl | h'
        · exact le_refl _
        · exact h0 g' h'
      · rw [List.filter_cons] at hg
        simp only [hpred] at hg
        intro g' hg' hpred'
        rcases List.mem_cons.mp hg' with rfl | h'
        · exact absurd hpred' (by simpa using hpred)
        · exact ih hp' hg g' h' hpred'

/-- The urgency banner of `compute`: the first satisfied guard wins,
otherwise a context-aware default. -/
theorem compute_urgency_eq (s : Session) :
    (compute s).urgency =
      match firstSatisfied (deriveFeatures s) urgencyGuards with
      | some g => ⟨g.level, g.text⟩
      | none =>
          if !hasFullPupilDataset s && !hasEOMData s && !hasVFData s &&
              !hasOpticNerveData s then
            ⟨"none", "Enter clinical findings in any module to generate differential diagnoses."⟩
          else
            ⟨"none", "Enter findings to build a live differential."⟩ := rfl


/-- C3: dominance equals "light" iff light-anisocoria is non-null, at least
the 0.5 mm threshold, and dark-anisocoria is null or strictly smaller;
symmetrically for "dark"; "equal" iff both are non-null and equal while at
least one meets the threshold; otherwise dominance is null. -/
theorem dominance_correct (s : Session) :
    ((deriveFeatures s).dominance = some "light" ↔
      ∃ a, (deriveFeatures s).anisL = some a ∧ ANISO_THRESHOLD_MM ≤ a ∧
        ((deriveFeatures s).anisD = none ∨
          ∃ b, (deriveFeatures s).anisD = some b ∧ b < a)) ∧
    ((deriveFeatures s).dominance = some "dark" ↔
      ∃ b, (deriveFeatures s).anisD = some b ∧ ANISO_THRESHOLD_MM ≤ b ∧
        ((deriveFeatures s).anisL = none ∨
          ∃ a, (deriveFeatures s).anisL = some a ∧ a < b)) ∧
    ((deriveFeatures s).dominance = some "equal" ↔
      ∃ a b, (deriveFeatures s).anisL = some a ∧ (deriveFeatures s).anisD = some b ∧
        a = b ∧ (ANISO_THRESHOLD_MM ≤ a ∨ ANISO_THRESHOLD_MM ≤ b)) ∧
    ((deriveFeatures s).dominance = none ∨ (deriveFeatures s).dominance = some "light" ∨
      (deriveFeatures s).dominance = some "dark" ∨
      (deriveFeatures s).dominance = some "equal") := by
  rw [deriveFeatures_dominance]
  exact ⟨mkDominance_light_iff _ _, mkDominance_dark_iff _ _, mkDominance_equal_iff _ _,
    mkDominance_cases _ _⟩

/-- Store defaults for the `triage` group (`defaultSession()` in common.js). -/
def defaultTriage : Triage := ⟨false, false, false, false⟩

/-- Store defaults for the `pupils` group: diameters `null`, enums empty. -/
def defaultPupils : Pupils :=
  ⟨.absent, .absent, .absent, .absent, "", "", false, false, false, false,
    false, false, "", ""⟩

/-- Store defaults for the `eom` group: the tri-state fields are `null`. -/
def defaultEOM : EOMGroup := ⟨false, false, .null, .null, .null, .null, false, false⟩

/-- Store defaults for the `visualFields` group: the meridian fields are `null`. -/
def defaultVF : VisualFields :=
  ⟨false, "", "", false, "", .null, .null, false, false, false, false, ""⟩

/-- The empty snapshot: every group absent. -/
def sessionEmpty : Session := ⟨none, none, none, none, none⟩

/-- A snapshot in which every module predicate is genuinely off: default
groups present everywhere (so `comitant` and the meridian fields are `null`,
not `undefined`) and nothing entered. -/
def sessionAllOff : Session :=
  ⟨some defaultTriage, some defaultPupils, some emptyOpticNerve, some defaultEOM,
    some defaultVF⟩

/-- Scenario D of the spec: trauma, RAPD 3+ OD, disc pallor OD, everything
else at store defaults. -/
def sessionD : Session :=
  ⟨some { defaultTriage with trauma := true },
   some { defaultPupils with rapdOD := "3+" },
   some { emptyOpticNerve with discPallorOD := true },
   some defaultEOM, some defaultVF⟩

/-- EOM group for the duplicate-name scenario: ptosis with abduction and
adduction deficits. -/
def eomC10 : EOMGroup :=
  ⟨false, true, JsBool3.null, JsBool3.val true, JsBool3.val true, JsBool3.null,
    false, false⟩

/-- Duplicate-name scenario: painful with ptosis, abduction and adduction
deficits. -/
def sessionC10 : Session :=
  ⟨some { defaultTriage with painful := true }, some defaultPupils, none,
   some eomC10, some defaultVF⟩

/-- Acute homonymous defect scenario: satisfies both the stroke danger guard
and the catch-all info guard. -/
def sessionStroke : Session :=
  ⟨some { defaultTriage with acuteOnset := true }, some defaultPupils, none,
   some defaultEOM, some { defaultVF with homonymous := true }⟩

/-- Light-dominant scenario: 3.5 / 2.5 mm in light, dark pair missing (one
side blank, one side null). -/
def pupilsLight : Pupils := { defaultPupils with
  odLight := RawNum.val (7/2)
  osLight := RawNum.val (5/2)
  odDark := RawNum.blank }

/-- Light-dominant snapshot assembled from `pupilsLight`. -/
def sessionLight : Session :=
  ⟨some defaultTriage, some pupilsLight, none, some defaultEOM, some defaultVF⟩

/-- C1 counterexample: for the empty snapshot the EOM minimum-data predicate
already holds (its `comitant !== null` disjunct is true for `undefined`), yet
the differential list `compute` returns is empty — so the list being empty is
not equivalent to no module predicate holding. -/
theorem gating_counterexample :
    hasEOMData sessionEmpty = true ∧ (compute sessionEmpty).differential = [] :=
  ⟨rfl, rfl⟩

/-- C1 (amended): the candidate list returned by `compute` is empty whenever
no module minimum-data predicate holds; when at least one holds, `compute`
returns exactly the scorer output for the derived features (which may itself
be empty). -/
theorem gating_amended (s : Session) :
    (hasFullPupilDataset s = false → hasEOMData s = false → hasVFData s = false →
      hasOpticNerveData s = false → (compute s).differential = []) ∧
    ((hasFullPupilDataset s || hasEOMData s || hasVFData s ||
        hasOpticNerveData s) = true →
      (compute s).differential = scoreDifferential (deriveFeatures s)) := by
  have hd : (compute s).differential =
      if hasFullPupilDataset s || hasEOMData s || hasVFData s || hasOpticNerveData s then
        scoreDifferential (deriveFeatures s)
      else [] := rfl
  constructor
  · intro h1 h2 h3 h4
    simp [hd, h1, h2, h3, h4]
  · intro h
    simp [hd, h]

/-- Witness for the amended gating claim: with every group present but
untouched no predicate holds and the list is empty; for the empty snapshot a
predicate holds and `compute` hands back the scorer output. -/
theorem gating_amended_witness :
    (hasFullPupilDataset sessionAllOff = false ∧ hasEOMData sessionAllOff = false ∧
      hasVFData sessionAllOff = false ∧ hasOpticNerveData sessionAllOff = false ∧
      (compute sessionAllOff).differential = []) ∧
    ((hasFullPupilDataset sessionEmpty || hasEOMData sessionEmpty ||
        hasVFData sessionEmpty || hasOpticNerveData sessionEmpty) = true ∧
      (compute sessionEmpty).differential =
        scoreDifferential (deriveFeatures sessionEmpty)) :=
  ⟨⟨rfl, rfl, rfl, rfl, (gating_amended sessionAllOff).1 rfl rfl rfl rfl⟩,
   ⟨rfl, (gating_amended sessionEmpty).2 rfl⟩⟩

/-- C2: when at least two urgency guards are satisfied, the banner is the
first satisfied guard of the cascade, exactly one banner is produced, and its
severity is maximal among all satisfied guards. -/
theorem urgency_precedence (s : Session)
    (h2 : 2 ≤ (urgencyGuards.filter fun g => g.pred (deriveFeatures s)).length) :
    ∃ g, (urgencyGuards.filter fun g => g.pred (deriveFeatures s)).head? = some g ∧
      (compute s).urgency = ⟨g.level, g.text⟩ ∧
      ∀ g' ∈ urgencyGuards, g'.pred (deriveFeatures s) = true →
        sevRank g'.level ≤ sevRank g.level := by
  obtain ⟨g, hg⟩ : ∃ g,
      (urgencyGuards.filter fun g => g.pred (deriveFeatures s)).head? = some g := by
    cases hh : urgencyGuards.filter fun g => g.pred (deriveFeatures s) with
    | nil => rw [hh] at h2; simp at h2
    | cons a l => exact ⟨a, rfl⟩
  have hfs : firstSatisfied (deriveFeatures s) urgencyGuards = some g := by
    rw [firstSatisfied_eq]; exact hg
  refine ⟨g, hg, ?_, firstSat_max guards_pairwise hg⟩
  rw [compute_urgency_eq, hfs]

/-- Witness for the urgency precedence claim: an acute homonymous defect
satisfies two guards (the stroke danger guard and the catch-all info guard)
and the banner is the danger one. -/
theorem urgency_precedence_witness :
    2 ≤ (urgencyGuards.filter fun g => g.pred (deriveFeatures sessionStroke)).length ∧
    (compute sessionStroke).urgency.level = "danger" := by
  have h2 : 2 ≤ (urgencyGuards.filter
      fun g => g.pred (deriveFeatures sessionStroke)).length := by decide
  obtain ⟨g, hg, hu, _⟩ := urgency_precedence sessionStroke h2
  have h3 : (urgencyGuards.filter fun g => g.pred (deriveFeatures sessionStroke)).head? =
      some ⟨fun f => f.vf_homonymous && f.acute, "danger",
        "URGENT: Acute homonymous visual field defect suggests stroke. Activate stroke protocol, establish last known well time."⟩ := rfl
  rw [h3] at hg
  refine ⟨h2, ?_⟩
  rw [hu, ← Option.some.inj hg]

/-- C6: for the trauma / RAPD 3+ / disc pallor snapshot the top candidate is
Traumatic Optic Neuropathy and the urgency level is critical. -/
theorem scenarioD_top_and_critical :
    ((compute sessionD).differential.head?.map Candidate.name) =
      some "Traumatic Optic Neuropathy" ∧
    (compute sessionD).urgency.level = "critical" :=
  ⟨rfl, rfl⟩

/-- C10: on the painful ptosis + abduction + adduction snapshot the returned
differential holds two distinct candidates both named Cavernous sinus
syndrome, one from the eom-catalog rule (minimum 4), one from the
neuro-catalog rule (minimum 5). -/
theorem cavernous_duplicate_names :
    ((scoreDifferential (deriveFeatures sessionC10)).filter
      (fun d => d.name == "Cavernous sinus syndrome")).map Candidate.category =
      ["eom", "neuro"] :=
  rfl

/-- C7: the numeric parser is total, sends absent / blank / non-finite input
to null and numeric input to its value, and the per-condition anisocoria is
null whenever either eye parses to null. -/
theorem num_parsing_safety :
    (∀ x : RawNum,
      (num x = none ↔ x = RawNum.absent ∨ x = RawNum.blank ∨ x = RawNum.nonfinite) ∧
      (∀ q : ℚ, x = RawNum.val q → num x = some q)) ∧
    (∀ s : Session,
      ((num s.p.odLight = none ∨ num s.p.osLight = none) →
        (deriveFeatures s).anisL = none) ∧
      ((num s.p.odDark = none ∨ num s.p.osDark = none) →
        (deriveFeatures s).anisD = none)) := by
  constructor
  · intro x
    constructor
    · cases x <;> simp [num]
    · intro q hq
      subst hq
      rfl
  · intro s
    have heL : (deriveFeatures s).anisL = absDiff (num s.p.odLight) (num s.p.osLight) := rfl
    have heD : (deriveFeatures s).anisD = absDiff (num s.p.odDark) (num s.p.osDark) := rfl
    constructor
    · intro h
      rw [heL]
      rcases h with h | h
      · rw [h]
        cases num s.p.osLight <;> rfl
      · rw [h]
        cases num s.p.odLight <;> rfl
    · intro h
      rw [heD]
      rcases h with h | h
      · rw [h]
        cases num s.p.osDark <;> rfl
      · rw [h]
        cases num s.p.odDark <;> rfl

/-- Witness for the parser safety claim: a blank field parses to null, and a
snapshot with a blank dark measurement has null dark anisocoria. -/
theorem num_parsing_safety_witness :
    num RawNum.blank = none ∧ (deriveFeatures sessionLight).anisD = none :=
  ⟨(num_parsing_safety.1 RawNum.blank).1.mpr (Or.inr (Or.inl rfl)),
   (num_parsing_safety.2 sessionLight).2 (Or.inl rfl)⟩

/-- A satisfied guard returned by `firstSatisfied` belongs to the cascade. -/
theorem firstSatisfied_mem {f : Features} {gs : List Guard} {g : Guard}
    (h : firstSatisfied f gs = some g) : g ∈ gs := by
  induction gs with
  | nil => simp [firstSatisfied] at h
  | cons g0 gs ih =>
      by_cases hp : g0.pred f
      · rw [firstSatisfied, if_pos hp] at h
        have hgg := Option.some.inj h
        subst hgg
        exact List.mem_cons_self g0 gs
      · rw [firstSatisfied, if_neg hp] at h
        exact List.mem_cons_of_mem g0 (ih h)

/-- No guard of the cascade carries the no-data banner text. -/
theorem guards_text_ne :
    ∀ g ∈ urgencyGuards,
      g.text ≠ "Enter clinical findings in any module to generate differential diagnoses." := by
  intro g hg
  fin_cases hg <;> decide

/-- C9: when the eom group is absent or its comitant field is undefined
(rather than null), `hasEOMData` is true because `undefined !== null`, so
`compute` runs the differential scorer and never shows the no-data banner. -/
theorem eom_undefined_counts_as_data (s : Session)
    (h : s.eom = none ∨ ∃ e, s.eom = some e ∧ e.comitant = JsBool3.undef) :
    hasEOMData s = true ∧
    (compute s).differential = scoreDifferential (deriveFeatures s) ∧
    (compute s).urgency.text ≠
      "Enter clinical findings in any module to generate differential diagnoses." := by
  have hc : s.e.comitant = JsBool3.undef := by
    rcases h with h | ⟨e, he, hce⟩
    · rw [Session.e, h]
      rfl
    · rw [Session.e, he]
      exact hce
  have heom : hasEOMData s = true := by
    simp [hasEOMData, hc]
  refine ⟨heom, ?_, ?_⟩
  · have hd : (compute s).differential =
        if hasFullPupilDataset s || hasEOMData s || hasVFData s ||
            hasOpticNerveData s then
          scoreDifferential (deriveFeatures s)
        else [] := rfl
    simp [hd, heom]
  · rw [compute_urgency_eq]
    cases hfs : firstSatisfied (deriveFeatures s) urgencyGuards with
    | some g =>
        simpa using guards_text_ne g (firstSatisfied_mem hfs)
    | none =>
        rw [heom]
        simp only [Bool.not_true, Bool.and_false, Bool.false_and, Bool.if_false_left]
        decide

/-- Witness for the undefined-comitant claim at the empty snapshot. -/
theorem eom_undefined_counts_as_data_witness :
    sessionEmpty.eom = none ∧ hasEOMData sessionEmpty = true ∧
    (compute sessionEmpty).urgency.text ≠
      "Enter clinical findings in any module to generate differential diagnoses." :=
  ⟨rfl, (eom_undefined_counts_as_data sessionEmpty (Or.inl rfl)).1,
   (eom_undefined_counts_as_data sessionEmpty (Or.inl rfl)).2.2⟩

/-- C5 (code bug): the final priority sort ranks "critical" as 3 (not 0)
because `priorityOrder[p] || 3` treats the falsy rank 0 as missing, so on the
trauma + RAPD + pallor snapshot the three critical tests sort behind every
high and moderate one, contradicting the stated critical < high < moderate <
low order; the `priorityOrder` map itself assigns critical rank 0. -/
theorem testing_sort_critical_last :
    ((compute sessionD).testingRecommendations.map TestRec.priority) =
      ["high", "high", "high", "high", "moderate", "critical", "critical", "critical"] ∧
    priorityOrder "critical" = some 0 ∧
    testRank ⟨"x", "critical", "y", none⟩ = 3 :=
  ⟨rfl, rfl, rfl⟩

/-- Witness for the dominance claim: on the light-pair snapshot the iff
produces dominance "light" from the concrete anisocoria values. -/
theorem dominance_correct_witness :
    (deriveFeatures sessionLight).dominance = some "light" := by
  refine (dominance_correct sessionLight).1.mpr
    ⟨|7/2 - (5/2 : ℚ)|, rfl, ?_, Or.inl rfl⟩
  rw [ANISO_THRESHOLD_MM]
  norm_num
